import Mathlib

/-!
Verification of the telemetry-to-metrics projection engine
(src/common/metrics.rs): a shallow embedding of the data model and the
projection functions, followed by theorems about the aggregation rules.

Modelling conventions:
- Rust usize / u64 / u16 counters are modelled as Nat (no arithmetic in the
  source can overflow them except the usize::MAX sentinel, which is kept
  explicitly as usizeMAX).
- Rust f32 / f64 values are modelled as rationals; the only floating-point
  operations performed by the source are exact casts from integers and
  division by 1,000,000.
- Rust HashMap values are modelled as association lists; iteration order of
  a map is the list order of its model (the source never relies on a
  particular order).
- Vec push sequences are modelled as list appends.
-/

namespace QdrantMetrics

/-- Metric kinds used by the source (prometheus MetricType). -/
inductive MetricType where
  | COUNTER
  | GAUGE
  | HISTOGRAM
deriving DecidableEq, Repr

/-- One label name/value pair (prometheus LabelPair). -/
structure LabelPair where
  name : String
  value : String
deriving DecidableEq, Repr

/-- The value part of a metric sample: counter, gauge, or histogram.
A histogram carries a sample count, a sample sum, and a list of
(upper_bound, cumulative_count) buckets. -/
inductive MetricValue where
  | counterValue (value : ℚ)
  | gaugeValue (value : ℚ)
  | histogramValue (sample_count : Nat) (sample_sum : ℚ) (buckets : List (ℚ × Nat))
deriving DecidableEq, Repr

/-- One metric sample with its labels (prometheus Metric). -/
structure Metric where
  label : List LabelPair
  value : MetricValue
deriving DecidableEq, Repr

/-- A named, typed group of samples (prometheus MetricFamily). -/
structure MetricFamily where
  name : String
  help : String
  type : MetricType
  metric : List Metric
deriving DecidableEq, Repr

/-- Translation of the label_pair helper. -/
def label_pair (name value : String) : LabelPair :=
  { name := name, value := value }

/-- Translation of the counter helper. -/
def counter (value : ℚ) (labels : List (String × String)) : Metric :=
  { label := labels.map fun nv => label_pair nv.1 nv.2
    value := MetricValue.counterValue value }

/-- Translation of the gauge helper. -/
def gauge (value : ℚ) (labels : List (String × String)) : Metric :=
  { label := labels.map fun nv => label_pair nv.1 nv.2
    value := MetricValue.gaugeValue value }

/-- Translation of the histogram helper. -/
def histogram (sample_count : Nat) (sample_sum : ℚ) (buckets : List (ℚ × Nat))
    (labels : List (String × String)) : Metric :=
  { label := labels.map fun nv => label_pair nv.1 nv.2
    value := MetricValue.histogramValue sample_count sample_sum buckets }

/-- Translation of the metric_family helper: the family name is the raw name
with the optional caller-supplied string prepended, with no separator. -/
def metric_family (name help : String) (ty : MetricType) (metrics : List Metric)
    (pfx : Option String) : MetricFamily :=
  { name := match pfx with
      | some p => p ++ name
      | none => name
    help := help
    type := ty
    metric := metrics }

/-- Translation of REST_ENDPOINT_WHITELIST (must be sorted). -/
def REST_ENDPOINT_WHITELIST : List String := [
  "/collections/{name}/index",
  "/collections/{name}/points",
  "/collections/{name}/points/batch",
  "/collections/{name}/points/count",
  "/collections/{name}/points/delete",
  "/collections/{name}/points/discover",
  "/collections/{name}/points/discover/batch",
  "/collections/{name}/points/facet",
  "/collections/{name}/points/payload",
  "/collections/{name}/points/payload/clear",
  "/collections/{name}/points/payload/delete",
  "/collections/{name}/points/query",
  "/collections/{name}/points/query/batch",
  "/collections/{name}/points/query/groups",
  "/collections/{name}/points/recommend",
  "/collections/{name}/points/recommend/batch",
  "/collections/{name}/points/recommend/groups",
  "/collections/{name}/points/scroll",
  "/collections/{name}/points/search",
  "/collections/{name}/points/search/batch",
  "/collections/{name}/points/search/groups",
  "/collections/{name}/points/search/matrix/offsets",
  "/collections/{name}/points/search/matrix/pairs",
  "/collections/{name}/points/vectors",
  "/collections/{name}/points/vectors/delete"]

/-- Translation of GRPC_ENDPOINT_WHITELIST (must be sorted). -/
def GRPC_ENDPOINT_WHITELIST : List String := [
  "/qdrant.Points/ClearPayload",
  "/qdrant.Points/Count",
  "/qdrant.Points/Delete",
  "/qdrant.Points/DeletePayload",
  "/qdrant.Points/Discover",
  "/qdrant.Points/DiscoverBatch",
  "/qdrant.Points/Facet",
  "/qdrant.Points/Get",
  "/qdrant.Points/OverwritePayload",
  "/qdrant.Points/Query",
  "/qdrant.Points/QueryBatch",
  "/qdrant.Points/QueryGroups",
  "/qdrant.Points/Recommend",
  "/qdrant.Points/RecommendBatch",
  "/qdrant.Points/RecommendGroups",
  "/qdrant.Points/Scroll",
  "/qdrant.Points/Search",
  "/qdrant.Points/SearchBatch",
  "/qdrant.Points/SearchGroups",
  "/qdrant.Points/SetPayload",
  "/qdrant.Points/UpdateBatch",
  "/qdrant.Points/UpdateVectors",
  "/qdrant.Points/Upsert"]

/-- Translation of REST_TIMINGS_FOR_STATUS: timings are reported for REST
responses only with this HTTP status. -/
def REST_TIMINGS_FOR_STATUS : Nat := 200

/-- Lexicographic strict order on character lists by code point, matching
the byte-wise Ord of Rust str on the ASCII strings compared here. -/
def charListLt : List Char → List Char → Bool
  | _, [] => false
  | [], _ :: _ => true
  | a :: as, b :: bs =>
    if a.toNat < b.toNat then true
    else if b.toNat < a.toNat then false
    else charListLt as bs

/-- Strict comparison of strings, as Rust str Ord compares the whitelist
entries. -/
def strLt (a b : String) : Bool :=
  charListLt a.data b.data

/-- Lax comparison of strings (the negation of the reverse strict one). -/
def strLe (a b : String) : Bool :=
  !strLt b a

/-- Loop of Rust slice binary_search specialised to strings: searches the
index range [left, right) of l for x, returning whether a match was found
(the source only ever inspects is_err / is_ok of the result). -/
def bsLoop (l : List String) (x : String) (left right : Nat) : Bool :=
  if h : left < right then
    if strLt (l.getD ((left + right) / 2) "") x then
      bsLoop l x ((left + right) / 2 + 1) right
    else if strLt x (l.getD ((left + right) / 2) "") then
      bsLoop l x left ((left + right) / 2)
    else true
  else false
termination_by right - left
decreasing_by
  all_goals omega

/-- Membership test by binary search over a sorted list, as the source does
with slice binary_search(..).is_ok(). -/
def bsContains (l : List String) (x : String) : Bool :=
  bsLoop l x 0 l.length

/-- Helper for splitOnceChar on the underlying character list: split at the
first occurrence of c, returning the parts before and after it. -/
def splitOnceAux (c : Char) : List Char → Option (List Char × List Char)
  | [] => none
  | x :: xs =>
    if x = c then some ([], xs)
    else (splitOnceAux c xs).map fun ab => (x :: ab.1, ab.2)

/-- Translation of str split_once for a one-character separator, as used on
the REST endpoint key (method and path separated by one space). -/
def splitOnceChar (s : String) (c : Char) : Option (String × String) :=
  (splitOnceAux c s.data).map fun ab => (String.mk ab.1, String.mk ab.2)

/-- Translation of OperationDurationStatistics (fields as used by the
source: usize count, optional usize fail_count, optional f32 durations in
microseconds, optional u64 total duration in microseconds, and the
(f32 bound, usize cumulative count) histogram buckets). -/
structure OperationDurationStatistics where
  count : Nat
  fail_count : Option Nat
  avg_duration_micros : Option ℚ
  min_duration_micros : Option ℚ
  max_duration_micros : Option ℚ
  total_duration_micros : Option Nat
  duration_micros_histogram : List (ℚ × Nat)
deriving DecidableEq, Repr

/-- Translation of OperationDurationMetricsBuilder: six sample accumulators,
one per metric family that build can emit. -/
structure OperationDurationMetricsBuilder where
  total : List Metric
  fail_total : List Metric
  avg_secs : List Metric
  min_secs : List Metric
  max_secs : List Metric
  duration_histogram_secs : List Metric
deriving DecidableEq, Repr

/-- Translation of OperationDurationMetricsBuilder::default(). -/
def OperationDurationMetricsBuilder.default : OperationDurationMetricsBuilder :=
  { total := [], fail_total := [], avg_secs := [], min_secs := [], max_secs := []
    duration_histogram_secs := [] }

/-- Translation of OperationDurationMetricsBuilder::add: always push the
total and fail-total counters (fail count defaulting to 0); when add_timings
is set, also push the average/min/max gauges (microseconds divided by
1,000,000, defaulting to 0) and the histogram (sample count, total duration
divided by 1,000,000, buckets with bounds divided by 1,000,000). -/
def OperationDurationMetricsBuilder.add (b : OperationDurationMetricsBuilder)
    (stat : OperationDurationStatistics) (labels : List (String × String))
    (add_timings : Bool) : OperationDurationMetricsBuilder :=
  let b := { b with
    total := b.total ++ [counter (stat.count : ℚ) labels]
    fail_total := b.fail_total ++ [counter ((stat.fail_count.getD 0 : Nat) : ℚ) labels] }
  if !add_timings then b
  else
    { b with
      avg_secs := b.avg_secs ++ [gauge (stat.avg_duration_micros.getD 0 / 1000000) labels]
      min_secs := b.min_secs ++ [gauge (stat.min_duration_micros.getD 0 / 1000000) labels]
      max_secs := b.max_secs ++ [gauge (stat.max_duration_micros.getD 0 / 1000000) labels]
      duration_histogram_secs := b.duration_histogram_secs ++
        [histogram stat.count (((stat.total_duration_micros.getD 0 : Nat) : ℚ) / 1000000)
          (stat.duration_micros_histogram.map fun bc => (bc.1 / 1000000, bc.2)) labels] }

/-- Name part put before the family base names by build: the global name
part followed by the domain word and an underscore when a global part is
supplied, the bare domain word otherwise. -/
def domainPfx (gpfx : Option String) (pfx : String) : String :=
  match gpfx with
  | some g => g ++ pfx ++ "_"
  | none => pfx

/-- Translation of OperationDurationMetricsBuilder::build: resolve the name
part and emit one family per non-empty accumulator, in source push order. -/
def OperationDurationMetricsBuilder.build (b : OperationDurationMetricsBuilder)
    (gpfx : Option String) (pfx : String) (metrics : List MetricFamily) :
    List MetricFamily :=
  let pfx := domainPfx gpfx pfx
  metrics
    ++ (if b.total.isEmpty then [] else
        [metric_family "responses_total" "total number of responses"
          MetricType.COUNTER b.total (some pfx)])
    ++ (if b.fail_total.isEmpty then [] else
        [metric_family "responses_fail_total" "total number of failed responses"
          MetricType.COUNTER b.fail_total (some pfx)])
    ++ (if b.avg_secs.isEmpty then [] else
        [metric_family "responses_avg_duration_seconds" "average response duration"
          MetricType.GAUGE b.avg_secs (some pfx)])
    ++ (if b.min_secs.isEmpty then [] else
        [metric_family "responses_min_duration_seconds" "minimum response duration"
          MetricType.GAUGE b.min_secs (some pfx)])
    ++ (if b.max_secs.isEmpty then [] else
        [metric_family "responses_max_duration_seconds" "maximum response duration"
          MetricType.GAUGE b.max_secs (some pfx)])
    ++ (if b.duration_histogram_secs.isEmpty then [] else
        [metric_family "responses_duration_seconds" "response duration histogram"
          MetricType.HISTOGRAM b.duration_histogram_secs (some pfx)])

/-- Translation of WebApiTelemetry: REST responses as a map from the
endpoint key (method, one space, path template) to a map from HTTP status
code to duration statistics. -/
structure WebApiTelemetry where
  responses : List (String × List (Nat × OperationDurationStatistics))
deriving DecidableEq, Repr

/-- Translation of GrpcTelemetry: gRPC responses as a map from the full
method name to duration statistics. -/
structure GrpcTelemetry where
  responses : List (String × OperationDurationStatistics)
deriving DecidableEq, Repr

/-- Body of the REST response loop: split the endpoint key at the first
space (dropping the entry when that fails), check the path against the REST
whitelist (dropping the entry when absent), then add one sample per status,
with timings only for REST_TIMINGS_FOR_STATUS. -/
def restAddEntry (b : OperationDurationMetricsBuilder)
    (kv : String × List (Nat × OperationDurationStatistics)) :
    OperationDurationMetricsBuilder :=
  match splitOnceChar kv.1 ' ' with
  | none => b
  | some mp =>
    if bsContains REST_ENDPOINT_WHITELIST mp.2 = false then b
    else
      kv.2.foldl
        (fun b sv =>
          b.add sv.2
            [("method", mp.1), ("endpoint", mp.2), ("status", toString sv.1)]
            (sv.1 == REST_TIMINGS_FOR_STATUS))
        b

/-- Translation of the WebApiTelemetry MetricsProvider implementation. -/
def WebApiTelemetry.add_metrics (t : WebApiTelemetry)
    (metrics : List MetricFamily) (pfx : Option String) : List MetricFamily :=
  (t.responses.foldl restAddEntry OperationDurationMetricsBuilder.default).build
    pfx "rest" metrics

/-- Body of the gRPC response loop: check the endpoint against the gRPC
whitelist (dropping the entry when absent), then add one sample with
timings always enabled. -/
def grpcAddEntry (b : OperationDurationMetricsBuilder)
    (kv : String × OperationDurationStatistics) :
    OperationDurationMetricsBuilder :=
  if bsContains GRPC_ENDPOINT_WHITELIST kv.1 = false then b
  else b.add kv.2 [("endpoint", kv.1)] true

/-- Translation of the GrpcTelemetry MetricsProvider implementation. -/
def GrpcTelemetry.add_metrics (t : GrpcTelemetry)
    (metrics : List MetricFamily) (pfx : Option String) : List MetricFamily :=
  (t.responses.foldl grpcAddEntry OperationDurationMetricsBuilder.default).build
    pfx "grpc" metrics

/-- Modelled from the spec: ReplicaState is a closed enumeration (defined in
the replica-set module, outside this source file) including at least Active,
Resharding, ReshardingScaleDown, and other non-active states
(dead/initializing/listener/etc.). -/
inductive ReplicaState where
  | Active
  | Dead
  | Partial
  | Initializing
  | Listener
  | Recovery
  | Resharding
  | ReshardingScaleDown
deriving DecidableEq, Repr

/-- Modelled from the spec: is_active (defined outside this source file) is
true for Active and ReshardingScaleDown (scale-down replicas being kept are
treated as active) and false otherwise. -/
def ReplicaState.is_active : ReplicaState → Bool
  | ReplicaState.Active => true
  | ReplicaState.ReshardingScaleDown => true
  | _ => false

/-- Translation of the local shard telemetry detail used by the source: the
optional per-vector counts of points excluded from indexed-only requests. -/
structure LocalShardTelemetry where
  indexed_only_excluded_vectors : Option (List (String × Nat))
deriving DecidableEq, Repr

/-- Translation of the per-shard replica-set telemetry used by the source:
the map from peer id to replica state, and the optional local detail
(field named local in the source, a reserved word here). -/
structure ReplicaSetTelemetry where
  replicate_states : List (Nat × ReplicaState)
  localShard : Option LocalShardTelemetry
deriving DecidableEq, Repr

/-- Modelled from the spec: the Full collection entry carries an identifier,
a count of running optimizer processes, a total point count, point counts by
named vector, an optional sequence of per-shard entries. The three counts
are methods of the collection telemetry type (outside this source file);
they are modelled as fields holding the method results. -/
structure CollectionTelemetry where
  id : String
  count_optimizers_running : Nat
  count_points : Nat
  count_points_per_vector : List (String × Nat)
  shards : Option (List ReplicaSetTelemetry)
deriving DecidableEq, Repr

/-- Modelled from the spec: the Aggregated entry is summary-only; its
contents are never inspected by the projection. -/
structure CollectionAggregatedTelemetry where
  id : String
deriving DecidableEq, Repr

/-- Translation of CollectionTelemetryEnum: Full participates in
aggregation, Aggregated is skipped. -/
inductive CollectionTelemetryEnum where
  | Full (c : CollectionTelemetry)
  | Aggregated (a : CollectionAggregatedTelemetry)
deriving DecidableEq, Repr

/-- Translation of CollectionsTelemetry: the collection count and the
sequence of optional per-collection entries. -/
structure CollectionsTelemetry where
  number_of_collections : Nat
  collections : List (Option CollectionTelemetryEnum)
deriving DecidableEq, Repr

/-- Shards of a collection as iterated by the source (iter().flatten() over
the optional list). -/
def flattenShards (o : Option (List ReplicaSetTelemetry)) : List ReplicaSetTelemetry :=
  o.getD []

/-- Translation of the mid-upscale test of the source: any replica in the
shard state map is Resharding. -/
def shardIsResharding (s : ReplicaSetTelemetry) : Bool :=
  s.replicate_states.any fun pr =>
    match pr.2 with
    | ReplicaState.Resharding => true
    | _ => false

/-- Translation of the per-shard map step of the source: the count of
replicas whose state is_active. -/
def shardActiveCount (s : ReplicaSetTelemetry) : Nat :=
  ((s.replicate_states.map Prod.snd).filter ReplicaState.is_active).length

/-- Translation of the dead-shard test of the source: any replica in the
shard state map is not is_active. -/
def shardHasDeadReplica (s : ReplicaSetTelemetry) : Bool :=
  s.replicate_states.any fun pr => !pr.2.is_active

/-- Active-replica counts of the shards eligible for the min/max rollup of
one Full collection: shards containing a Resharding replica are filtered
out, the rest map to their is_active replica count (the filter/map chain of
the source). -/
def eligibleActiveCounts (c : CollectionTelemetry) : List Nat :=
  ((flattenShards c.shards).filter fun s => !shardIsResharding s).map shardActiveCount

/-- One step of the itertools minmax fold over an optional running pair. -/
def minmaxStep : Option (Nat × Nat) → Nat → Option (Nat × Nat)
  | none, x => some (x, x)
  | some mm, x => some (Nat.min mm.1 x, Nat.max mm.2 x)

/-- Translation of itertools minmax as matched by the source: none for no
elements, otherwise the (min, max) pair (a single element yields that
element twice). -/
def minmaxFold (l : List Nat) : Option (Nat × Nat) :=
  l.foldl minmaxStep none

/-- Translation of the per-collection fold of indexed-only excluded vector
counts into a map (HashMap entry().or_insert(0) += size; modelled as an
association list in first-insertion order). -/
def accumExcluded (acc : List (String × Nat)) (kv : String × Nat) :
    List (String × Nat) :=
  if acc.any fun p => p.1 == kv.1 then
    acc.map fun p => if p.1 == kv.1 then (p.1, p.2 + kv.2) else p
  else acc ++ [kv]

/-- Accumulator state of the collection loop of the source: one field per
mutable local of CollectionsTelemetry::add_metrics. -/
structure CollectionAggregates where
  total_optimizations_running : Nat
  total_min_active_replicas : Nat
  total_max_active_replicas : Nat
  points_per_collection : List Metric
  indexed_only_excluded : List Metric
  total_dead_shards : Nat
  vector_count_by_name : List Metric
deriving DecidableEq, Repr

/-- The usize::MAX sentinel used to initialise the running minimum. -/
def usizeMAX : Nat := 2 ^ 64 - 1

/-- Initial values of the loop locals of CollectionsTelemetry::add_metrics. -/
def initialAggregates : CollectionAggregates :=
  { total_optimizations_running := 0
    total_min_active_replicas := usizeMAX
    total_max_active_replicas := 0
    points_per_collection := []
    indexed_only_excluded := []
    total_dead_shards := 0
    vector_count_by_name := [] }

/-- Translation of the loop body of CollectionsTelemetry::add_metrics for a
Full collection entry, in source statement order: optimizer count, min/max
active replicas over eligible shards, points per collection, vector counts
by name, indexed-only excluded counts, dead shards. -/
def processFullCollection (st : CollectionAggregates) (c : CollectionTelemetry) :
    CollectionAggregates :=
  let st := { st with
    total_optimizations_running :=
      st.total_optimizations_running + c.count_optimizers_running }
  let st := match minmaxFold (eligibleActiveCounts c) with
    | none => st
    | some mm =>
      { st with
        total_min_active_replicas := Nat.min st.total_min_active_replicas mm.1
        total_max_active_replicas := Nat.max st.total_max_active_replicas mm.2 }
  let st := { st with
    points_per_collection := st.points_per_collection ++
      [gauge (c.count_points : ℚ) [("id", c.id)]] }
  let st := { st with
    vector_count_by_name := st.vector_count_by_name ++
      c.count_points_per_vector.map fun nv : String × Nat =>
        gauge (nv.2 : ℚ) [("collection", c.id), ("vector", nv.1)] }
  let excluded :=
    ((((flattenShards c.shards).filterMap fun s => s.localShard).filterMap
      fun l => l.indexed_only_excluded_vectors).flatten).foldl accumExcluded []
  let st := { st with
    indexed_only_excluded := st.indexed_only_excluded ++
      excluded.map fun nv : String × Nat =>
        gauge (nv.2 : ℚ) [("id", c.id), ("vector", nv.1)] }
  { st with
    total_dead_shards := st.total_dead_shards +
      ((flattenShards c.shards).filter shardHasDeadReplica).length }

/-- Translation of the loop body dispatch: Full entries are processed,
Aggregated entries are skipped (continue). -/
def processCollectionEntry (st : CollectionAggregates)
    (e : CollectionTelemetryEnum) : CollectionAggregates :=
  match e with
  | CollectionTelemetryEnum.Full c => processFullCollection st c
  | CollectionTelemetryEnum.Aggregated _ => st

/-- The collection loop of the source: iterate over present entries
(iter().flatten() skips None entries) starting from the initial locals. -/
def collectionAggregates (t : CollectionsTelemetry) : CollectionAggregates :=
  (t.collections.filterMap id).foldl processCollectionEntry initialAggregates

/-- Translation of the sentinel replacement of the source: the running
minimum reports 0 when it is still usize::MAX. -/
def totalMinActiveReplicasValue (t : CollectionsTelemetry) : Nat :=
  if (collectionAggregates t).total_min_active_replicas = usizeMAX then 0
  else (collectionAggregates t).total_min_active_replicas

/-- Translation of the CollectionsTelemetry MetricsProvider implementation:
the family pushes of the source in order, with the conditional families
emitted only when they have at least one sample. -/
def CollectionsTelemetry.add_metrics (t : CollectionsTelemetry)
    (metrics : List MetricFamily) (pfx : Option String) : List MetricFamily :=
  metrics
    ++ [metric_family "collections_total" "number of collections"
        MetricType.GAUGE [gauge (t.number_of_collections : ℚ) []] pfx]
    ++ (if (collectionAggregates t).vector_count_by_name.isEmpty then [] else
        [metric_family "collection_vectors_total"
          "amount of vectors grouped by vector name" MetricType.GAUGE
          (collectionAggregates t).vector_count_by_name pfx])
    ++ (if (collectionAggregates t).indexed_only_excluded.isEmpty then [] else
        [metric_family "collection_indexed_only_excluded_points"
          "amount of points excluded in indexed_only requests" MetricType.GAUGE
          (collectionAggregates t).indexed_only_excluded pfx])
    ++ [metric_family "active_replicas_min"
        "minimum number of active replicas across all shards" MetricType.GAUGE
        [gauge (totalMinActiveReplicasValue t : ℚ) []] pfx]
    ++ [metric_family "active_replicas_max"
        "maximum number of active replicas across all shards" MetricType.GAUGE
        [gauge ((collectionAggregates t).total_max_active_replicas : ℚ) []] pfx]
    ++ [metric_family "optimizer_running_processes"
        "number of currently running optimization processes" MetricType.GAUGE
        [gauge ((collectionAggregates t).total_optimizations_running : ℚ) []] pfx]
    ++ (if (collectionAggregates t).points_per_collection.isEmpty then [] else
        [metric_family "collection_points"
          "approximate amount of points per collection" MetricType.GAUGE
          (collectionAggregates t).points_per_collection pfx])
    ++ [metric_family "dead_shards_total"
        "total amount of shard replicas in non-active state" MetricType.GAUGE
        [gauge ((collectionAggregates t).total_dead_shards : ℚ) []] pfx]

/-- Translation of AppFeaturesTelemetry (field used by the source). -/
structure AppFeaturesTelemetry where
  recovery_mode : Bool
deriving DecidableEq, Repr

/-- Translation of AppBuildTelemetry (fields used by the source). -/
structure AppBuildTelemetry where
  name : String
  version : String
  features : Option AppFeaturesTelemetry
deriving DecidableEq, Repr

/-- Translation of the AppFeaturesTelemetry MetricsProvider implementation. -/
def AppFeaturesTelemetry.add_metrics (t : AppFeaturesTelemetry)
    (metrics : List MetricFamily) (pfx : Option String) : List MetricFamily :=
  metrics ++ [metric_family "app_status_recovery_mode"
    "features enabled in qdrant server" MetricType.GAUGE
    [gauge (if t.recovery_mode then 1 else 0) []] pfx]

/-- Translation of the AppBuildTelemetry MetricsProvider implementation. -/
def AppBuildTelemetry.add_metrics (t : AppBuildTelemetry)
    (metrics : List MetricFamily) (pfx : Option String) : List MetricFamily :=
  let metrics := metrics ++ [metric_family "app_info"
    "information about qdrant server" MetricType.GAUGE
    [gauge 1 [("name", t.name), ("version", t.version)]] pfx]
  match t.features with
  | some f => f.add_metrics metrics pfx
  | none => metrics

/-- Translation of ClusterStatusTelemetry (fields used by the source). -/
structure ClusterStatusTelemetry where
  number_of_peers : Nat
  term : Nat
  commit : Nat
  pending_operations : Nat
  peer_id : Option Nat
  is_voter : Bool
deriving DecidableEq, Repr

/-- Translation of ClusterTelemetry (fields used by the source; the config,
peers and metadata fields are destructured and ignored there). -/
structure ClusterTelemetry where
  enabled : Bool
  status : Option ClusterStatusTelemetry
deriving DecidableEq, Repr

/-- Translation of the ClusterStatusTelemetry MetricsProvider
implementation. -/
def ClusterStatusTelemetry.add_metrics (t : ClusterStatusTelemetry)
    (metrics : List MetricFamily) (pfx : Option String) : List MetricFamily :=
  let metrics := metrics
    ++ [metric_family "cluster_peers_total" "total number of cluster peers"
        MetricType.GAUGE [gauge (t.number_of_peers : ℚ) []] pfx]
    ++ [metric_family "cluster_term" "current cluster term" MetricType.COUNTER
        [counter (t.term : ℚ) []] pfx]
  match t.peer_id with
  | some pid =>
    metrics
      ++ [metric_family "cluster_commit"
          "index of last committed (finalized) operation cluster peer is aware of"
          MetricType.COUNTER
          [counter (t.commit : ℚ) [("peer_id", toString pid)]] pfx]
      ++ [metric_family "cluster_pending_operations_total"
          "total number of pending operations for cluster peer" MetricType.GAUGE
          [gauge (t.pending_operations : ℚ) []] pfx]
      ++ [metric_family "cluster_voter" "is cluster peer a voter or learner"
          MetricType.GAUGE [gauge (if t.is_voter then 1 else 0) []] pfx]
  | none => metrics

/-- Translation of the ClusterTelemetry MetricsProvider implementation. -/
def ClusterTelemetry.add_metrics (t : ClusterTelemetry)
    (metrics : List MetricFamily) (pfx : Option String) : List MetricFamily :=
  let metrics := metrics ++ [metric_family "cluster_enabled"
    "is cluster support enabled" MetricType.GAUGE
    [gauge (if t.enabled then 1 else 0) []] pfx]
  match t.status with
  | some s => s.add_metrics metrics pfx
  | none => metrics

/-- Translation of RequestsTelemetry. -/
structure RequestsTelemetry where
  rest : WebApiTelemetry
  grpc : GrpcTelemetry
deriving DecidableEq, Repr

/-- Translation of the RequestsTelemetry MetricsProvider implementation. -/
def RequestsTelemetry.add_metrics (t : RequestsTelemetry)
    (metrics : List MetricFamily) (pfx : Option String) : List MetricFamily :=
  t.grpc.add_metrics (t.rest.add_metrics metrics pfx) pfx

/-- Translation of MemoryTelemetry (fields used by the source). -/
structure MemoryTelemetry where
  active_bytes : Nat
  allocated_bytes : Nat
  metadata_bytes : Nat
  resident_bytes : Nat
  retained_bytes : Nat
deriving DecidableEq, Repr

/-- Translation of the MemoryTelemetry MetricsProvider implementation. -/
def MemoryTelemetry.add_metrics (t : MemoryTelemetry)
    (metrics : List MetricFamily) (pfx : Option String) : List MetricFamily :=
  metrics
    ++ [metric_family "memory_active_bytes"
        "Total number of bytes in active pages allocated by the application"
        MetricType.GAUGE [gauge (t.active_bytes : ℚ) []] pfx]
    ++ [metric_family "memory_allocated_bytes"
        "Total number of bytes allocated by the application"
        MetricType.GAUGE [gauge (t.allocated_bytes : ℚ) []] pfx]
    ++ [metric_family "memory_metadata_bytes"
        "Total number of bytes dedicated to metadata"
        MetricType.GAUGE [gauge (t.metadata_bytes : ℚ) []] pfx]
    ++ [metric_family "memory_resident_bytes"
        "Maximum number of bytes in physically resident data pages mapped"
        MetricType.GAUGE [gauge (t.resident_bytes : ℚ) []] pfx]
    ++ [metric_family "memory_retained_bytes"
        "Total number of bytes in virtual memory mappings"
        MetricType.GAUGE [gauge (t.retained_bytes : ℚ) []] pfx]

/-- Translation of HardwareUsage (rest API model): seven counters. -/
structure HardwareUsage where
  cpu : Nat
  payload_io_read : Nat
  payload_io_write : Nat
  payload_index_io_read : Nat
  payload_index_io_write : Nat
  vector_io_read : Nat
  vector_io_write : Nat
deriving DecidableEq, Repr

/-- Translation of HardwareTelemetry: per-collection hardware usage map. -/
structure HardwareTelemetry where
  collection_data : List (String × HardwareUsage)
deriving DecidableEq, Repr

/-- Translation of HardwareTelemetry::make_metric_counters: one counter per
collection, labelled by collection id. -/
def HardwareTelemetry.make_metric_counters (t : HardwareTelemetry)
    (f : HardwareUsage → Nat) : List Metric :=
  t.collection_data.map fun kv => counter ((f kv.2 : Nat) : ℚ) [("id", kv.1)]

/-- Translation of the HardwareTelemetry MetricsProvider implementation:
nothing is emitted when the per-collection map is empty; otherwise the seven
counter families, in source push order. -/
def HardwareTelemetry.add_metrics (t : HardwareTelemetry)
    (metrics : List MetricFamily) (pfx : Option String) : List MetricFamily :=
  if t.collection_data.isEmpty then metrics
  else
    metrics
      ++ [metric_family "collection_hardware_metric_cpu"
          "CPU measurements of a collection" MetricType.COUNTER
          (t.make_metric_counters fun hw => hw.cpu) pfx]
      ++ [metric_family "collection_hardware_metric_payload_io_read"
          "Total IO payload read metrics of a collection" MetricType.COUNTER
          (t.make_metric_counters fun hw => hw.payload_io_read) pfx]
      ++ [metric_family "collection_hardware_metric_payload_index_io_read"
          "Total IO payload index read metrics of a collection" MetricType.COUNTER
          (t.make_metric_counters fun hw => hw.payload_index_io_read) pfx]
      ++ [metric_family "collection_hardware_metric_payload_index_io_write"
          "Total IO payload index write metrics of a collection" MetricType.COUNTER
          (t.make_metric_counters fun hw => hw.payload_index_io_write) pfx]
      ++ [metric_family "collection_hardware_metric_payload_io_write"
          "Total IO payload write metrics of a collection" MetricType.COUNTER
          (t.make_metric_counters fun hw => hw.payload_io_write) pfx]
      ++ [metric_family "collection_hardware_metric_vector_io_read"
          "Total IO vector read metrics of a collection" MetricType.COUNTER
          (t.make_metric_counters fun hw => hw.vector_io_read) pfx]
      ++ [metric_family "collection_hardware_metric_vector_io_write"
          "Total IO vector write metrics of a collection" MetricType.COUNTER
          (t.make_metric_counters fun hw => hw.vector_io_write) pfx]

/-- Translation of TelemetryData (fields used by the source projection; the
Linux-only procfs sub-projector reads the host OS and is outside the pure
core modelled here). -/
structure TelemetryData where
  app : AppBuildTelemetry
  collections : CollectionsTelemetry
  cluster : Option ClusterTelemetry
  requests : Option RequestsTelemetry
  hardware : Option HardwareTelemetry
  memory : Option MemoryTelemetry
deriving DecidableEq, Repr

/-- Translation of the TelemetryData MetricsProvider implementation (without
the platform-conditional procfs hook). -/
def TelemetryData.add_metrics (t : TelemetryData)
    (metrics : List MetricFamily) (pfx : Option String) : List MetricFamily :=
  let metrics := t.app.add_metrics metrics pfx
  let metrics := CollectionsTelemetry.add_metrics t.collections metrics pfx
  let metrics := match t.cluster with
    | some c => c.add_metrics metrics pfx
    | none => metrics
  let metrics := match t.requests with
    | some r => r.add_metrics metrics pfx
    | none => metrics
  let metrics := match t.hardware with
    | some h => h.add_metrics metrics pfx
    | none => metrics
  match t.memory with
  | some m => m.add_metrics metrics pfx
  | none => metrics

/-- Translation of MetricsData::new_from_telemetry: project one snapshot and
an optional name part into the ordered list of metric families. -/
def MetricsData.new_from_telemetry (t : TelemetryData) (pfx : Option String) :
    List MetricFamily :=
  t.add_metrics [] pfx

/-! Definitions supporting the claims: recomputations of the rollups in the
words of the specification (to be compared with the source translation
above), together with small helpers for stating the claims. -/

/-- Eligible active-replica counts contributed by one collection entry per
the specification: a Full entry contributes the is_active replica count of
each of its shards that has no Resharding replica; an Aggregated entry
contributes nothing. -/
def entryEligibleCounts (e : CollectionTelemetryEnum) : List Nat :=
  match e with
  | CollectionTelemetryEnum.Full c => eligibleActiveCounts c
  | CollectionTelemetryEnum.Aggregated _ => []

/-- All eligible active-replica counts across all present collection
entries of a snapshot, in order. -/
def specEligibleActiveCounts (t : CollectionsTelemetry) : List Nat :=
  ((t.collections.filterMap id).map entryEligibleCounts).flatten

/-- Claim-side minimum: the minimum of the eligible active-replica counts,
0 when no shard is eligible. -/
def specMinActiveReplicas (t : CollectionsTelemetry) : Nat :=
  match specEligibleActiveCounts t with
  | [] => 0
  | a :: l => l.foldl Nat.min a

/-- Claim-side maximum: the maximum of the eligible active-replica counts,
0 when no shard is eligible. -/
def specMaxActiveReplicas (t : CollectionsTelemetry) : Nat :=
  match specEligibleActiveCounts t with
  | [] => 0
  | a :: l => l.foldl Nat.max a

/-- Shards contributed by one collection entry: all shards of a Full entry
(with no eligibility filter), nothing for an Aggregated entry. -/
def entryShards (e : CollectionTelemetryEnum) : List ReplicaSetTelemetry :=
  match e with
  | CollectionTelemetryEnum.Full c => flattenShards c.shards
  | CollectionTelemetryEnum.Aggregated _ => []

/-- All shards of all present Full collection entries of a snapshot. -/
def allFullShards (t : CollectionsTelemetry) : List ReplicaSetTelemetry :=
  ((t.collections.filterMap id).map entryShards).flatten

/-- Claim-side dead-shard count: one per shard having at least one replica
that is not is_active, across all shards of all Full collections. -/
def specDeadShardCount (t : CollectionsTelemetry) : Nat :=
  (allFullShards t).countP shardHasDeadReplica

/-- Insertion of a shard at the front of the shard list of the collection
entry e (used to state that a mid-upscale shard does not move the min/max):
entries that are absent or Aggregated are left unchanged. -/
def entryInsertShard (e : Option CollectionTelemetryEnum)
    (s : ReplicaSetTelemetry) : Option CollectionTelemetryEnum :=
  match e with
  | some (CollectionTelemetryEnum.Full c) =>
    some (CollectionTelemetryEnum.Full
      { c with shards := some (s :: flattenShards c.shards) })
  | e => e

/-- Snapshot with the shard s inserted into the i-th collection entry. -/
def insertShardAt (t : CollectionsTelemetry) (i : Nat)
    (s : ReplicaSetTelemetry) : CollectionsTelemetry :=
  { t with collections :=
      t.collections.set i (entryInsertShard (t.collections.getD i none) s) }

/-- Whether an optional collection entry is present and of the Full
variant. -/
def isFullEntry (e : Option CollectionTelemetryEnum) : Bool :=
  match e with
  | some (CollectionTelemetryEnum.Full _) => true
  | _ => false

/-- The collection entry list restricted to its present Full entries. -/
def keepFullEntries (l : List (Option CollectionTelemetryEnum)) :
    List (Option CollectionTelemetryEnum) :=
  l.filter isFullEntry

/-- Sample lists of the families carrying a given name, in output order. -/
def familiesNamed (name : String) (ms : List MetricFamily) : List (List Metric) :=
  (ms.filter fun f => f.name == name).map fun f => f.metric

/-! Lemmas about the collection-aggregation fold. -/

theorem foldl_minmaxStep_some (l : List Nat) (mn mx : Nat) :
    l.foldl minmaxStep (some (mn, mx)) =
      some (l.foldl Nat.min mn, l.foldl Nat.max mx) := by
  induction l generalizing mn mx with
  | nil => rfl
  | cons x xs ih => simp [minmaxStep, ih]

theorem foldl_min_swap (l : List Nat) (a b : Nat) :
    l.foldl Nat.min (Nat.min a b) = Nat.min a (l.foldl Nat.min b) := by
  induction l generalizing b with
  | nil => rfl
  | cons x xs ih =>
    simp only [List.foldl_cons]
    have hassoc : ((Nat.min a b).min x) = a.min (b.min x) := Nat.min_assoc a b x
    rw [hassoc, ih]

theorem foldl_max_swap (l : List Nat) (a b : Nat) :
    l.foldl Nat.max (Nat.max a b) = Nat.max a (l.foldl Nat.max b) := by
  induction l generalizing b with
  | nil => rfl
  | cons x xs ih =>
    simp only [List.foldl_cons]
    have hassoc : ((Nat.max a b).max x) = a.max (b.max x) := Nat.max_assoc a b x
    rw [hassoc, ih]

theorem min_after_minmaxFold (l : List Nat) (a : Nat) :
    (match minmaxFold l with
      | none => a
      | some mm => Nat.min a mm.1) = l.foldl Nat.min a := by
  cases l with
  | nil => rfl
  | cons x xs =>
    show (match xs.foldl minmaxStep (some (x, x)) with
      | none => a
      | some mm => Nat.min a mm.1) = (x :: xs).foldl Nat.min a
    rw [foldl_minmaxStep_some]
    simp only [List.foldl_cons]
    rw [← foldl_min_swap]

theorem max_after_minmaxFold (l : List Nat) (a : Nat) :
    (match minmaxFold l with
      | none => a
      | some mm => Nat.max a mm.2) = l.foldl Nat.max a := by
  cases l with
  | nil => rfl
  | cons x xs =>
    show (match xs.foldl minmaxStep (some (x, x)) with
      | none => a
      | some mm => Nat.max a mm.2) = (x :: xs).foldl Nat.max a
    rw [foldl_minmaxStep_some]
    simp only [List.foldl_cons]
    rw [← foldl_max_swap]

theorem processFull_min (st : CollectionAggregates) (c : CollectionTelemetry) :
    (processFullCollection st c).total_min_active_replicas =
      (eligibleActiveCounts c).foldl Nat.min st.total_min_active_replicas := by
  rw [← min_after_minmaxFold]
  cases h : minmaxFold (eligibleActiveCounts c) <;>
    simp [processFullCollection, h]

theorem processFull_max (st : CollectionAggregates) (c : CollectionTelemetry) :
    (processFullCollection st c).total_max_active_replicas =
      (eligibleActiveCounts c).foldl Nat.max st.total_max_active_replicas := by
  rw [← max_after_minmaxFold]
  cases h : minmaxFold (eligibleActiveCounts c) <;>
    simp [processFullCollection, h]

theorem processFull_dead (st : CollectionAggregates) (c : CollectionTelemetry) :
    (processFullCollection st c).total_dead_shards =
      st.total_dead_shards +
        ((flattenShards c.shards).filter shardHasDeadReplica).length := by
  cases h : minmaxFold (eligibleActiveCounts c) <;>
    simp [processFullCollection, h]

theorem foldAgg_min (colls : List CollectionTelemetryEnum)
    (st : CollectionAggregates) :
    (colls.foldl processCollectionEntry st).total_min_active_replicas =
      ((colls.map entryEligibleCounts).flatten).foldl Nat.min
        st.total_min_active_replicas := by
  induction colls generalizing st with
  | nil => rfl
  | cons e es ih =>
    cases e with
    | Full c =>
      simp only [List.foldl_cons, List.map_cons, List.flatten_cons,
        List.foldl_append, processCollectionEntry, ih, processFull_min,
        entryEligibleCounts]
    | Aggregated a =>
      simp only [List.foldl_cons, List.map_cons, List.flatten_cons,
        List.foldl_append, processCollectionEntry, ih, entryEligibleCounts,
        List.foldl_nil]

theorem foldAgg_max (colls : List CollectionTelemetryEnum)
    (st : CollectionAggregates) :
    (colls.foldl processCollectionEntry st).total_max_active_replicas =
      ((colls.map entryEligibleCounts).flatten).foldl Nat.max
        st.total_max_active_replicas := by
  induction colls generalizing st with
  | nil => rfl
  | cons e es ih =>
    cases e with
    | Full c =>
      simp only [List.foldl_cons, List.map_cons, List.flatten_cons,
        List.foldl_append, processCollectionEntry, ih, processFull_max,
        entryEligibleCounts]
    | Aggregated a =>
      simp only [List.foldl_cons, List.map_cons, List.flatten_cons,
        List.foldl_append, processCollectionEntry, ih, entryEligibleCounts,
        List.foldl_nil]

theorem foldAgg_dead (colls : List CollectionTelemetryEnum)
    (st : CollectionAggregates) :
    (colls.foldl processCollectionEntry st).total_dead_shards =
      st.total_dead_shards +
        ((colls.map entryShards).flatten).countP shardHasDeadReplica := by
  induction colls generalizing st with
  | nil => simp
  | cons e es ih =>
    cases e with
    | Full c =>
      simp only [List.foldl_cons, List.map_cons, List.flatten_cons,
        processCollectionEntry, ih, processFull_dead, entryShards,
        List.countP_append]
      simp only [List.countP_eq_length_filter]
      omega
    | Aggregated a =>
      simp only [List.foldl_cons, List.map_cons, List.flatten_cons,
        processCollectionEntry, ih, entryShards, List.countP_append]
      simp [List.countP_nil]

theorem aggregates_min (t : CollectionsTelemetry) :
    (collectionAggregates t).total_min_active_replicas =
      (specEligibleActiveCounts t).foldl Nat.min usizeMAX := by
  unfold collectionAggregates specEligibleActiveCounts
  rw [foldAgg_min]
  rfl

theorem aggregates_max (t : CollectionsTelemetry) :
    (collectionAggregates t).total_max_active_replicas =
      (specEligibleActiveCounts t).foldl Nat.max 0 := by
  unfold collectionAggregates specEligibleActiveCounts
  rw [foldAgg_max]
  rfl

theorem aggregates_dead (t : CollectionsTelemetry) :
    (collectionAggregates t).total_dead_shards = specDeadShardCount t := by
  unfold collectionAggregates specDeadShardCount allFullShards
  rw [foldAgg_dead]
  simp [initialAggregates]

theorem foldl_min_le (l : List Nat) (a : Nat) : l.foldl Nat.min a ≤ a := by
  induction l generalizing a with
  | nil => exact Nat.le_refl a
  | cons x xs ih =>
    exact Nat.le_trans (ih (Nat.min a x)) (Nat.min_le_left a x)

theorem totalMin_eq_spec (t : CollectionsTelemetry)
    (hlt : ∀ n ∈ specEligibleActiveCounts t, n < usizeMAX) :
    totalMinActiveReplicasValue t = specMinActiveReplicas t := by
  unfold totalMinActiveReplicasValue specMinActiveReplicas
  rw [aggregates_min]
  cases h : specEligibleActiveCounts t with
  | nil => simp
  | cons a l =>
    have ha : a < usizeMAX := hlt a (by rw [h]; exact List.mem_cons_self a l)
    have h1 : Nat.min usizeMAX a = a := Nat.min_eq_right (Nat.le_of_lt ha)
    have h2 : (a :: l).foldl Nat.min usizeMAX = l.foldl Nat.min a := by
      simp only [List.foldl_cons, h1]
    rw [h2]
    have h3 : l.foldl Nat.min a ≤ a := foldl_min_le l a
    have h4 : l.foldl Nat.min a ≠ usizeMAX := by omega
    simp [h4]

theorem totalMax_eq_spec (t : CollectionsTelemetry) :
    (collectionAggregates t).total_max_active_replicas =
      specMaxActiveReplicas t := by
  unfold specMaxActiveReplicas
  rw [aggregates_max]
  cases h : specEligibleActiveCounts t with
  | nil => simp
  | cons a l =>
    simp only [List.foldl_cons, Nat.zero_max]

/-! Lemmas about inserting a mid-upscale shard and about purging entries
that are not Full. -/

theorem eligible_counts_insert_resharding (c : CollectionTelemetry)
    (s : ReplicaSetTelemetry) (hs : shardIsResharding s = true) :
    eligibleActiveCounts { c with shards := some (s :: flattenShards c.shards) } =
      eligibleActiveCounts c := by
  simp [eligibleActiveCounts, flattenShards, List.filter_cons, hs]

theorem insert_counts_list (s : ReplicaSetTelemetry)
    (hs : shardIsResharding s = true)
    (l : List (Option CollectionTelemetryEnum)) (i : Nat) :
    (((l.set i (entryInsertShard (l.getD i none) s)).filterMap id).map
        entryEligibleCounts).flatten =
      ((l.filterMap id).map entryEligibleCounts).flatten := by
  induction l generalizing i with
  | nil => rfl
  | cons x xs ih =>
    cases i with
    | zero =>
      cases x with
      | none => rfl
      | some e =>
        cases e with
        | Full c =>
          simp [List.filterMap_cons, entryInsertShard, entryEligibleCounts,
            eligible_counts_insert_resharding c s hs]
        | Aggregated a => rfl
    | succ j =>
      cases x with
      | none =>
        simp only [List.getD_cons_succ, List.set_cons_succ, List.filterMap_cons,
          id_eq]
        exact ih j
      | some e =>
        simp only [List.getD_cons_succ, List.set_cons_succ, List.filterMap_cons,
          id_eq, List.map_cons, List.flatten_cons]
        rw [ih j]

theorem insert_spec_counts (t : CollectionsTelemetry) (i : Nat)
    (s : ReplicaSetTelemetry) (hs : shardIsResharding s = true) :
    specEligibleActiveCounts (insertShardAt t i s) = specEligibleActiveCounts t := by
  unfold specEligibleActiveCounts insertShardAt
  exact insert_counts_list s hs t.collections i

theorem fold_purge (l : List (Option CollectionTelemetryEnum))
    (st : CollectionAggregates) :
    ((keepFullEntries l).filterMap id).foldl processCollectionEntry st =
      (l.filterMap id).foldl processCollectionEntry st := by
  induction l generalizing st with
  | nil => rfl
  | cons x xs ih =>
    cases x with
    | none =>
      simp only [keepFullEntries, List.filter_cons, isFullEntry,
        Bool.false_eq_true, if_false, List.filterMap_cons, id_eq]
      exact ih st
    | some e =>
      cases e with
      | Full c =>
        simp only [keepFullEntries, List.filter_cons, isFullEntry, if_true,
          List.filterMap_cons, id_eq, List.foldl_cons]
        exact ih (processCollectionEntry st (CollectionTelemetryEnum.Full c))
      | Aggregated a =>
        simp only [keepFullEntries, List.filter_cons, isFullEntry,
          Bool.false_eq_true, if_false, List.filterMap_cons, id_eq,
          List.foldl_cons, processCollectionEntry]
        exact ih st

theorem aggregates_purge (t : CollectionsTelemetry) :
    collectionAggregates { t with collections := keepFullEntries t.collections } =
      collectionAggregates t := by
  unfold collectionAggregates
  exact fold_purge t.collections initialAggregates

/-! Correctness of the binary-search membership test on sorted lists. -/

theorem char_eq_of_toNat_eq (a b : Char) (h : a.toNat = b.toNat) : a = b := by
  apply Char.ext
  apply UInt32.ext
  simpa [Char.toNat] using h

theorem string_eq_of_data_eq (a b : String) (h : a.data = b.data) : a = b := by
  cases a
  cases b
  exact congrArg String.mk (by simpa using h)

theorem charListLt_irrefl (a : List Char) : charListLt a a = false := by
  induction a with
  | nil => rfl
  | cons x xs ih => simp [charListLt, Nat.lt_irrefl, ih]

theorem strLt_irrefl (a : String) : strLt a a = false :=
  charListLt_irrefl a.data

theorem charListLt_antisym (a : List Char) :
    ∀ b, charListLt a b = false → charListLt b a = false → a = b := by
  induction a with
  | nil =>
    intro b h1 _
    cases b with
    | nil => rfl
    | cons y ys => simp [charListLt] at h1
  | cons x xs ih =>
    intro b h1 h2
    cases b with
    | nil => simp [charListLt] at h2
    | cons y ys =>
      by_cases hxy : x.toNat < y.toNat
      · simp [charListLt, hxy] at h1
      · by_cases hyx : y.toNat < x.toNat
        · simp [charListLt, hyx] at h2
        · have hx : x = y := char_eq_of_toNat_eq x y (by omega)
          have h1a : charListLt xs ys = false := by
            simpa [charListLt, hxy, hyx] using h1
          have h2a : charListLt ys xs = false := by
            simpa [charListLt, hyx, hxy] using h2
          rw [hx, ih ys h1a h2a]

theorem strLt_antisym (a b : String) (h1 : strLt a b = false)
    (h2 : strLt b a = false) : a = b :=
  string_eq_of_data_eq a b (charListLt_antisym a.data b.data h1 h2)

theorem bsLoop_sound (l : List String) (x : String) :
    ∀ n left right, right - left ≤ n → bsLoop l x left right = true →
      ∃ i, left ≤ i ∧ i < right ∧ l.getD i "" = x := by
  intro n
  induction n with
  | zero =>
    intro left right hn hb
    rw [bsLoop] at hb
    split at hb
    · omega
    · exact absurd hb (by simp)
  | succ m ih =>
    intro left right hn hb
    rw [bsLoop] at hb
    split at hb
    case isFalse => exact absurd hb (by simp)
    case isTrue hlr =>
      have hmid1 : left ≤ (left + right) / 2 := by omega
      have hmid2 : (left + right) / 2 < right := by omega
      split at hb
      case isTrue hvx =>
        obtain ⟨i, h1, h2, h3⟩ := ih ((left + right) / 2 + 1) right (by omega) hb
        exact ⟨i, by omega, h2, h3⟩
      case isFalse hvx =>
        split at hb
        case isTrue hxv =>
          obtain ⟨i, h1, h2, h3⟩ := ih left ((left + right) / 2) (by omega) hb
          exact ⟨i, h1, by omega, h3⟩
        case isFalse hxv =>
          refine ⟨(left + right) / 2, hmid1, hmid2, ?_⟩
          simp only [Bool.not_eq_true] at hvx hxv
          exact strLt_antisym (l.getD ((left + right) / 2) "") x hvx hxv

theorem bsLoop_complete (l : List String) (x : String)
    (hsort : List.Pairwise (fun a b => strLe a b = true) l) :
    ∀ n left right, right - left ≤ n → right ≤ l.length →
      (∃ i, left ≤ i ∧ i < right ∧ l.getD i "" = x) →
      bsLoop l x left right = true := by
  intro n
  induction n with
  | zero =>
    intro left right hn _ hex
    obtain ⟨i, h1, h2, _⟩ := hex
    omega
  | succ m ih =>
    intro left right hn hlen hex
    obtain ⟨i, h1, h2, h3⟩ := hex
    have hlr : left < right := by omega
    have hmid1 : left ≤ (left + right) / 2 := by omega
    have hmid2 : (left + right) / 2 < right := by omega
    have hmidlen : (left + right) / 2 < l.length := by omega
    have hilen : i < l.length := by omega
    rw [bsLoop]
    rw [dif_pos hlr]
    by_cases hvx : strLt (l.getD ((left + right) / 2) "") x = true
    · rw [if_pos hvx]
      refine ih ((left + right) / 2 + 1) right (by omega) hlen ⟨i, ?_, h2, h3⟩
      by_contra hile
      rcases Nat.lt_or_ge i ((left + right) / 2) with hlt | hge
      · have hle := List.pairwise_iff_get.mp hsort ⟨i, hilen⟩ ⟨_, hmidlen⟩ hlt
        simp only [strLe, Bool.not_eq_eq_eq_not, Bool.not_true] at hle
        rw [List.getD_eq_get l "" hilen] at h3
        rw [List.getD_eq_get l "" hmidlen] at hvx
        rw [h3] at hle
        rw [hle] at hvx
        exact Bool.noConfusion hvx
      · have hieq : i = (left + right) / 2 := by omega
        rw [hieq] at h3
        rw [h3, strLt_irrefl] at hvx
        exact Bool.noConfusion hvx
    · rw [if_neg hvx]
      by_cases hxv : strLt x (l.getD ((left + right) / 2) "") = true
      · rw [if_pos hxv]
        refine ih left ((left + right) / 2) (by omega) (by omega) ⟨i, h1, ?_, h3⟩
        by_contra hige
        rcases Nat.lt_or_ge ((left + right) / 2) i with hlt | hge
        · have hle := List.pairwise_iff_get.mp hsort ⟨_, hmidlen⟩ ⟨i, hilen⟩ hlt
          simp only [strLe, Bool.not_eq_eq_eq_not, Bool.not_true] at hle
          rw [List.getD_eq_get l "" hilen] at h3
          rw [List.getD_eq_get l "" hmidlen] at hxv
          rw [h3] at hle
          rw [hle] at hxv
          exact Bool.noConfusion hxv
        · have hieq : (left + right) / 2 = i := by omega
          rw [← hieq] at h3
          rw [h3, strLt_irrefl] at hxv
          exact Bool.noConfusion hxv
      · rw [if_neg hxv]

theorem bsContains_iff_mem (l : List String)
    (hsort : List.Pairwise (fun a b => strLe a b = true) l)
    (x : String) : bsContains l x = true ↔ x ∈ l := by
  constructor
  · intro hb
    obtain ⟨i, _, h2, h3⟩ := bsLoop_sound l x l.length 0 l.length (by omega) hb
    rw [List.getD_eq_get l "" h2] at h3
    exact h3 ▸ List.get_mem l i h2
  · intro hm
    obtain ⟨⟨i, hi⟩, hget⟩ := List.mem_iff_get.mp hm
    exact bsLoop_complete l x hsort l.length 0 l.length (by omega) (by omega)
      ⟨i, by omega, hi, by rw [List.getD_eq_get l "" hi]; exact hget⟩

theorem rest_whitelist_sorted :
    List.Pairwise (fun a b => strLe a b = true) REST_ENDPOINT_WHITELIST := by
  decide

theorem grpc_whitelist_sorted :
    List.Pairwise (fun a b => strLe a b = true) GRPC_ENDPOINT_WHITELIST := by
  decide

theorem rest_bsContains_iff (x : String) :
    bsContains REST_ENDPOINT_WHITELIST x = true ↔ x ∈ REST_ENDPOINT_WHITELIST :=
  bsContains_iff_mem REST_ENDPOINT_WHITELIST rest_whitelist_sorted x

theorem grpc_bsContains_iff (x : String) :
    bsContains GRPC_ENDPOINT_WHITELIST x = true ↔ x ∈ GRPC_ENDPOINT_WHITELIST :=
  bsContains_iff_mem GRPC_ENDPOINT_WHITELIST grpc_whitelist_sorted x

/-! The excluded-vectors rollup of one collection iterates a freshly seeded
HashMap (one per collection, per invocation); its iteration order is
unspecified and may differ between two invocations on equal inputs. The
definitions below repeat the translation with that order made explicit: a
reordering function ord stands for the order one invocation realizes on the
accumulated (name, count) pairs (an admissible order is a permutation). The
development above is the instance ord = id, the canonical first-insertion
order; every aggregate except the indexed-only-excluded sample list is
independent of ord. -/

/-- Translation of the loop body of CollectionsTelemetry::add_metrics for a
Full collection entry, with the iteration order of the freshly seeded
excluded-vectors map explicit. -/
def processFullCollectionOrd (ord : List (String × Nat) → List (String × Nat))
    (st : CollectionAggregates) (c : CollectionTelemetry) :
    CollectionAggregates :=
  let st := { st with
    total_optimizations_running :=
      st.total_optimizations_running + c.count_optimizers_running }
  let st := match minmaxFold (eligibleActiveCounts c) with
    | none => st
    | some mm =>
      { st with
        total_min_active_replicas := Nat.min st.total_min_active_replicas mm.1
        total_max_active_replicas := Nat.max st.total_max_active_replicas mm.2 }
  let st := { st with
    points_per_collection := st.points_per_collection ++
      [gauge (c.count_points : ℚ) [("id", c.id)]] }
  let st := { st with
    vector_count_by_name := st.vector_count_by_name ++
      c.count_points_per_vector.map fun nv : String × Nat =>
        gauge (nv.2 : ℚ) [("collection", c.id), ("vector", nv.1)] }
  let excluded := ord
    (((((flattenShards c.shards).filterMap fun s => s.localShard).filterMap
      fun l => l.indexed_only_excluded_vectors).flatten).foldl accumExcluded [])
  let st := { st with
    indexed_only_excluded := st.indexed_only_excluded ++
      excluded.map fun nv : String × Nat =>
        gauge (nv.2 : ℚ) [("id", c.id), ("vector", nv.1)] }
  { st with
    total_dead_shards := st.total_dead_shards +
      ((flattenShards c.shards).filter shardHasDeadReplica).length }

/-- Loop body dispatch with explicit iteration order. -/
def processCollectionEntryOrd (ord : List (String × Nat) → List (String × Nat))
    (st : CollectionAggregates) (e : CollectionTelemetryEnum) :
    CollectionAggregates :=
  match e with
  | CollectionTelemetryEnum.Full c => processFullCollectionOrd ord st c
  | CollectionTelemetryEnum.Aggregated _ => st

/-- The collection loop with explicit iteration order. -/
def collectionAggregatesOrd (ord : List (String × Nat) → List (String × Nat))
    (t : CollectionsTelemetry) : CollectionAggregates :=
  (t.collections.filterMap id).foldl (processCollectionEntryOrd ord)
    initialAggregates

/-- The sentinel replacement with explicit iteration order. -/
def totalMinActiveReplicasValueOrd
    (ord : List (String × Nat) → List (String × Nat))
    (t : CollectionsTelemetry) : Nat :=
  if (collectionAggregatesOrd ord t).total_min_active_replicas = usizeMAX then 0
  else (collectionAggregatesOrd ord t).total_min_active_replicas

/-- The CollectionsTelemetry projection with explicit iteration order. -/
def CollectionsTelemetry.add_metricsOrd
    (ord : List (String × Nat) → List (String × Nat))
    (t : CollectionsTelemetry) (metrics : List MetricFamily)
    (pfx : Option String) : List MetricFamily :=
  metrics
    ++ [metric_family "collections_total" "number of collections"
        MetricType.GAUGE [gauge (t.number_of_collections : ℚ) []] pfx]
    ++ (if (collectionAggregatesOrd ord t).vector_count_by_name.isEmpty then [] else
        [metric_family "collection_vectors_total"
          "amount of vectors grouped by vector name" MetricType.GAUGE
          (collectionAggregatesOrd ord t).vector_count_by_name pfx])
    ++ (if (collectionAggregatesOrd ord t).indexed_only_excluded.isEmpty then [] else
        [metric_family "collection_indexed_only_excluded_points"
          "amount of points excluded in indexed_only requests" MetricType.GAUGE
          (collectionAggregatesOrd ord t).indexed_only_excluded pfx])
    ++ [metric_family "active_replicas_min"
        "minimum number of active replicas across all shards" MetricType.GAUGE
        [gauge (totalMinActiveReplicasValueOrd ord t : ℚ) []] pfx]
    ++ [metric_family "active_replicas_max"
        "maximum number of active replicas across all shards" MetricType.GAUGE
        [gauge ((collectionAggregatesOrd ord t).total_max_active_replicas : ℚ) []] pfx]
    ++ [metric_family "optimizer_running_processes"
        "number of currently running optimization processes" MetricType.GAUGE
        [gauge ((collectionAggregatesOrd ord t).total_optimizations_running : ℚ) []] pfx]
    ++ (if (collectionAggregatesOrd ord t).points_per_collection.isEmpty then [] else
        [metric_family "collection_points"
          "approximate amount of points per collection" MetricType.GAUGE
          (collectionAggregatesOrd ord t).points_per_collection pfx])
    ++ [metric_family "dead_shards_total"
        "total amount of shard replicas in non-active state" MetricType.GAUGE
        [gauge ((collectionAggregatesOrd ord t).total_dead_shards : ℚ) []] pfx]

/-- Dispatch of one optional subtree of the root projection: the if-let of
the source (absent subtrees contribute nothing). -/
def optAdd {α : Type}
    (add : α → List MetricFamily → Option String → List MetricFamily)
    (o : Option α) (metrics : List MetricFamily) (pfx : Option String) :
    List MetricFamily :=
  match o with
  | some a => add a metrics pfx
  | none => metrics

/-- The root projection with explicit iteration order (procfs hook still
outside the pure core): the same provider chain as the order-free
translation, written with the optional-subtree dispatch named. -/
def TelemetryData.add_metricsOrd
    (ord : List (String × Nat) → List (String × Nat))
    (t : TelemetryData) (metrics : List MetricFamily) (pfx : Option String) :
    List MetricFamily :=
  optAdd MemoryTelemetry.add_metrics t.memory
    (optAdd HardwareTelemetry.add_metrics t.hardware
      (optAdd RequestsTelemetry.add_metrics t.requests
        (optAdd ClusterTelemetry.add_metrics t.cluster
          (CollectionsTelemetry.add_metricsOrd ord t.collections
            (t.app.add_metrics metrics pfx) pfx) pfx) pfx) pfx) pfx

/-- MetricsData::new_from_telemetry with explicit iteration order. -/
def MetricsData.new_from_telemetryOrd
    (ord : List (String × Nat) → List (String × Nat))
    (t : TelemetryData) (pfx : Option String) : List MetricFamily :=
  TelemetryData.add_metricsOrd ord t [] pfx

/-- The canonical-order instance coincides with the order-free translation
used by the order-insensitive claims. -/
theorem new_from_telemetryOrd_id (t : TelemetryData) (pfx : Option String) :
    MetricsData.new_from_telemetryOrd id t pfx =
      MetricsData.new_from_telemetry t pfx := by
  unfold MetricsData.new_from_telemetryOrd MetricsData.new_from_telemetry
    TelemetryData.add_metricsOrd TelemetryData.add_metrics optAdd
  cases t.cluster <;> cases t.requests <;> cases t.hardware <;>
    cases t.memory <;> rfl

/-- Two families agree up to the order of their samples: same name, help
and kind, and the sample lists are permutations of one another. -/
def familyUpToSampleOrder (f1 f2 : MetricFamily) : Prop :=
  f1.name = f2.name ∧ f1.help = f2.help ∧ f1.type = f2.type ∧
    f1.metric.Perm f2.metric

theorem familyUpToSampleOrder_refl (f : MetricFamily) :
    familyUpToSampleOrder f f :=
  ⟨rfl, rfl, rfl, List.Perm.refl f.metric⟩

theorem forall₂_family_refl (l : List MetricFamily) :
    List.Forall₂ familyUpToSampleOrder l l :=
  List.forall₂_same.mpr fun x _ => familyUpToSampleOrder_refl x

/-- Two aggregate states agree except possibly in the order of the
indexed-only-excluded samples. -/
def aggUpToExcludedOrder (s1 s2 : CollectionAggregates) : Prop :=
  s1.total_optimizations_running = s2.total_optimizations_running ∧
  s1.total_min_active_replicas = s2.total_min_active_replicas ∧
  s1.total_max_active_replicas = s2.total_max_active_replicas ∧
  s1.points_per_collection = s2.points_per_collection ∧
  s1.total_dead_shards = s2.total_dead_shards ∧
  s1.vector_count_by_name = s2.vector_count_by_name ∧
  s1.indexed_only_excluded.Perm s2.indexed_only_excluded

theorem processFullOrd_rel
    (ord1 ord2 : List (String × Nat) → List (String × Nat))
    (h1 : ∀ l, (ord1 l).Perm l) (h2 : ∀ l, (ord2 l).Perm l)
    (st1 st2 : CollectionAggregates) (hrel : aggUpToExcludedOrder st1 st2)
    (c : CollectionTelemetry) :
    aggUpToExcludedOrder (processFullCollectionOrd ord1 st1 c)
      (processFullCollectionOrd ord2 st2 c) := by
  obtain ⟨e1, e2, e3, e4, e5, e6, e7⟩ := hrel
  cases hmm : minmaxFold (eligibleActiveCounts c) with
  | none =>
    refine ⟨?_, ?_, ?_, ?_, ?_, ?_, ?_⟩
    · simp [processFullCollectionOrd, hmm, e1]
    · simp [processFullCollectionOrd, hmm, e2]
    · simp [processFullCollectionOrd, hmm, e3]
    · simp [processFullCollectionOrd, hmm, e4]
    · simp [processFullCollectionOrd, hmm, e5]
    · simp [processFullCollectionOrd, hmm, e6]
    · simp only [processFullCollectionOrd, hmm]
      exact e7.append (((h1 _).trans (h2 _).symm).map _)
  | some mm =>
    refine ⟨?_, ?_, ?_, ?_, ?_, ?_, ?_⟩
    · simp [processFullCollectionOrd, hmm, e1]
    · simp [processFullCollectionOrd, hmm, e2]
    · simp [processFullCollectionOrd, hmm, e3]
    · simp [processFullCollectionOrd, hmm, e4]
    · simp [processFullCollectionOrd, hmm, e5]
    · simp [processFullCollectionOrd, hmm, e6]
    · simp only [processFullCollectionOrd, hmm]
      exact e7.append (((h1 _).trans (h2 _).symm).map _)

theorem processEntryOrd_rel
    (ord1 ord2 : List (String × Nat) → List (String × Nat))
    (h1 : ∀ l, (ord1 l).Perm l) (h2 : ∀ l, (ord2 l).Perm l)
    (st1 st2 : CollectionAggregates) (hrel : aggUpToExcludedOrder st1 st2)
    (e : CollectionTelemetryEnum) :
    aggUpToExcludedOrder (processCollectionEntryOrd ord1 st1 e)
      (processCollectionEntryOrd ord2 st2 e) := by
  cases e with
  | Full c => exact processFullOrd_rel ord1 ord2 h1 h2 st1 st2 hrel c
  | Aggregated a => exact hrel

theorem foldOrd_rel
    (ord1 ord2 : List (String × Nat) → List (String × Nat))
    (h1 : ∀ l, (ord1 l).Perm l) (h2 : ∀ l, (ord2 l).Perm l)
    (colls : List CollectionTelemetryEnum) :
    ∀ st1 st2, aggUpToExcludedOrder st1 st2 →
      aggUpToExcludedOrder (colls.foldl (processCollectionEntryOrd ord1) st1)
        (colls.foldl (processCollectionEntryOrd ord2) st2) := by
  induction colls with
  | nil => exact fun st1 st2 hrel => hrel
  | cons e es ih =>
    intro st1 st2 hrel
    exact ih _ _ (processEntryOrd_rel ord1 ord2 h1 h2 st1 st2 hrel e)

theorem aggOrd_rel
    (ord1 ord2 : List (String × Nat) → List (String × Nat))
    (h1 : ∀ l, (ord1 l).Perm l) (h2 : ∀ l, (ord2 l).Perm l)
    (t : CollectionsTelemetry) :
    aggUpToExcludedOrder (collectionAggregatesOrd ord1 t)
      (collectionAggregatesOrd ord2 t) :=
  foldOrd_rel ord1 ord2 h1 h2 (t.collections.filterMap id) initialAggregates
    initialAggregates ⟨rfl, rfl, rfl, rfl, rfl, rfl, List.Perm.refl _⟩

theorem collectionsOrd_forall₂
    (ord1 ord2 : List (String × Nat) → List (String × Nat))
    (h1 : ∀ l, (ord1 l).Perm l) (h2 : ∀ l, (ord2 l).Perm l)
    (tc : CollectionsTelemetry) (ms1 ms2 : List MetricFamily)
    (p : Option String) (hms : List.Forall₂ familyUpToSampleOrder ms1 ms2) :
    List.Forall₂ familyUpToSampleOrder
      (CollectionsTelemetry.add_metricsOrd ord1 tc ms1 p)
      (CollectionsTelemetry.add_metricsOrd ord2 tc ms2 p) := by
  obtain ⟨e1, e2, e3, e4, e5, e6, e7⟩ := aggOrd_rel ord1 ord2 h1 h2 tc
  have emin : totalMinActiveReplicasValueOrd ord1 tc =
      totalMinActiveReplicasValueOrd ord2 tc := by
    unfold totalMinActiveReplicasValueOrd
    rw [e2]
  have hix : List.Forall₂ familyUpToSampleOrder
      (if (collectionAggregatesOrd ord1 tc).indexed_only_excluded.isEmpty then []
       else [metric_family "collection_indexed_only_excluded_points"
         "amount of points excluded in indexed_only requests" MetricType.GAUGE
         (collectionAggregatesOrd ord1 tc).indexed_only_excluded p])
      (if (collectionAggregatesOrd ord2 tc).indexed_only_excluded.isEmpty then []
       else [metric_family "collection_indexed_only_excluded_points"
         "amount of points excluded in indexed_only requests" MetricType.GAUGE
         (collectionAggregatesOrd ord2 tc).indexed_only_excluded p]) := by
    rcases hc : (collectionAggregatesOrd ord1 tc).indexed_only_excluded with _ | ⟨a, as⟩
    · have hc2 : (collectionAggregatesOrd ord2 tc).indexed_only_excluded = [] := by
        rw [hc] at e7
        exact List.perm_nil.mp e7.symm
      simp only [hc, hc2, List.isEmpty_nil, if_true]
      exact List.Forall₂.nil
    · rw [hc] at e7
      have hc2 : (collectionAggregatesOrd ord2 tc).indexed_only_excluded ≠ [] := by
        intro hnil
        rw [hnil] at e7
        exact absurd (List.perm_nil.mp e7) (by simp)
      rcases hd : (collectionAggregatesOrd ord2 tc).indexed_only_excluded with _ | ⟨b, bs⟩
      · exact absurd hd hc2
      · rw [hd] at e7
        simp only [hc, hd, List.isEmpty_cons, Bool.false_eq_true, if_false]
        exact List.Forall₂.cons ⟨rfl, rfl, rfl, e7⟩ List.Forall₂.nil
  unfold CollectionsTelemetry.add_metricsOrd
  rw [emin, e1, e3, e4, e5, e6]
  exact List.rel_append (List.rel_append (List.rel_append (List.rel_append
    (List.rel_append (List.rel_append (List.rel_append (List.rel_append hms
      (forall₂_family_refl _)) (forall₂_family_refl _)) hix)
      (forall₂_family_refl _)) (forall₂_family_refl _)) (forall₂_family_refl _))
      (forall₂_family_refl _)) (forall₂_family_refl _)

theorem build_append (b : OperationDurationMetricsBuilder)
    (gpfx : Option String) (pfx : String) (ms : List MetricFamily) :
    b.build gpfx pfx ms = ms ++ b.build gpfx pfx [] := by
  simp [OperationDurationMetricsBuilder.build]

theorem webapi_add_append (t : WebApiTelemetry) (ms : List MetricFamily)
    (pfx : Option String) :
    t.add_metrics ms pfx = ms ++ t.add_metrics [] pfx := by
  unfold WebApiTelemetry.add_metrics
  rw [build_append]

theorem grpc_add_append (t : GrpcTelemetry) (ms : List MetricFamily)
    (pfx : Option String) :
    t.add_metrics ms pfx = ms ++ t.add_metrics [] pfx := by
  unfold GrpcTelemetry.add_metrics
  rw [build_append]

theorem requests_add_append (t : RequestsTelemetry) (ms : List MetricFamily)
    (pfx : Option String) :
    t.add_metrics ms pfx = ms ++ t.add_metrics [] pfx := by
  unfold RequestsTelemetry.add_metrics
  rw [grpc_add_append t.grpc (t.rest.add_metrics ms pfx) pfx,
    webapi_add_append t.rest ms pfx,
    grpc_add_append t.grpc (t.rest.add_metrics [] pfx) pfx,
    List.append_assoc]

theorem status_add_append (s : ClusterStatusTelemetry) (ms : List MetricFamily)
    (pfx : Option String) :
    s.add_metrics ms pfx = ms ++ s.add_metrics [] pfx := by
  cases hp : s.peer_id <;>
    simp [ClusterStatusTelemetry.add_metrics, hp, List.append_assoc]

theorem status_add_append_left (s : ClusterStatusTelemetry)
    (ms xs : List MetricFamily) (pfx : Option String) :
    s.add_metrics (ms ++ xs) pfx = ms ++ s.add_metrics xs pfx := by
  rw [status_add_append s (ms ++ xs) pfx, status_add_append s xs pfx,
    List.append_assoc]

theorem cluster_add_append (c : ClusterTelemetry) (ms : List MetricFamily)
    (pfx : Option String) :
    c.add_metrics ms pfx = ms ++ c.add_metrics [] pfx := by
  cases hs : c.status with
  | none => simp [ClusterTelemetry.add_metrics, hs]
  | some s =>
    simp only [ClusterTelemetry.add_metrics, hs, List.nil_append]
    rw [status_add_append_left]

theorem hardware_add_append (t : HardwareTelemetry) (ms : List MetricFamily)
    (pfx : Option String) :
    t.add_metrics ms pfx = ms ++ t.add_metrics [] pfx := by
  by_cases h : t.collection_data.isEmpty <;>
    simp [HardwareTelemetry.add_metrics, h, List.append_assoc]

theorem memory_add_append (t : MemoryTelemetry) (ms : List MetricFamily)
    (pfx : Option String) :
    t.add_metrics ms pfx = ms ++ t.add_metrics [] pfx := by
  simp [MemoryTelemetry.add_metrics, List.append_assoc]

theorem cluster_step (pfx : Option String) (c : ClusterTelemetry)
    (ms1 ms2 : List MetricFamily)
    (h : List.Forall₂ familyUpToSampleOrder ms1 ms2) :
    List.Forall₂ familyUpToSampleOrder (c.add_metrics ms1 pfx)
      (c.add_metrics ms2 pfx) := by
  rw [cluster_add_append c ms1 pfx, cluster_add_append c ms2 pfx]
  exact List.rel_append h (forall₂_family_refl _)

theorem requests_step (pfx : Option String) (r : RequestsTelemetry)
    (ms1 ms2 : List MetricFamily)
    (h : List.Forall₂ familyUpToSampleOrder ms1 ms2) :
    List.Forall₂ familyUpToSampleOrder (r.add_metrics ms1 pfx)
      (r.add_metrics ms2 pfx) := by
  rw [requests_add_append r ms1 pfx, requests_add_append r ms2 pfx]
  exact List.rel_append h (forall₂_family_refl _)

theorem hardware_step (pfx : Option String) (hw : HardwareTelemetry)
    (ms1 ms2 : List MetricFamily)
    (h : List.Forall₂ familyUpToSampleOrder ms1 ms2) :
    List.Forall₂ familyUpToSampleOrder (hw.add_metrics ms1 pfx)
      (hw.add_metrics ms2 pfx) := by
  rw [hardware_add_append hw ms1 pfx, hardware_add_append hw ms2 pfx]
  exact List.rel_append h (forall₂_family_refl _)

theorem memory_step (pfx : Option String) (m : MemoryTelemetry)
    (ms1 ms2 : List MetricFamily)
    (h : List.Forall₂ familyUpToSampleOrder ms1 ms2) :
    List.Forall₂ familyUpToSampleOrder (m.add_metrics ms1 pfx)
      (m.add_metrics ms2 pfx) := by
  rw [memory_add_append m ms1 pfx, memory_add_append m ms2 pfx]
  exact List.rel_append h (forall₂_family_refl _)

theorem optAdd_step {α : Type}
    (add : α → List MetricFamily → Option String → List MetricFamily)
    (pfx : Option String)
    (hstep : ∀ a ms1 ms2, List.Forall₂ familyUpToSampleOrder ms1 ms2 →
      List.Forall₂ familyUpToSampleOrder (add a ms1 pfx) (add a ms2 pfx))
    (o : Option α) (ms1 ms2 : List MetricFamily)
    (h : List.Forall₂ familyUpToSampleOrder ms1 ms2) :
    List.Forall₂ familyUpToSampleOrder (optAdd add o ms1 pfx)
      (optAdd add o ms2 pfx) := by
  cases o with
  | none => exact h
  | some a => exact hstep a ms1 ms2 h

theorem rootOrd_forall₂
    (ord1 ord2 : List (String × Nat) → List (String × Nat))
    (h1 : ∀ l, (ord1 l).Perm l) (h2 : ∀ l, (ord2 l).Perm l)
    (t : TelemetryData) (p : Option String) :
    List.Forall₂ familyUpToSampleOrder
      (MetricsData.new_from_telemetryOrd ord1 t p)
      (MetricsData.new_from_telemetryOrd ord2 t p) := by
  unfold MetricsData.new_from_telemetryOrd TelemetryData.add_metricsOrd
  exact optAdd_step MemoryTelemetry.add_metrics p (memory_step p) t.memory _ _
    (optAdd_step HardwareTelemetry.add_metrics p (hardware_step p) t.hardware _ _
      (optAdd_step RequestsTelemetry.add_metrics p (requests_step p) t.requests _ _
        (optAdd_step ClusterTelemetry.add_metrics p (cluster_step p) t.cluster _ _
          (collectionsOrd_forall₂ ord1 ord2 h1 h2 t.collections _ _ p
            (forall₂_family_refl (t.app.add_metrics [] p))))))

/-! Claim theorems. -/

/-- C8: both whitelist constants are sorted in non-decreasing lexicographic
order: every pair of adjacent entries of REST_ENDPOINT_WHITELIST, and every
pair of adjacent entries of GRPC_ENDPOINT_WHITELIST, satisfies
entry i at most entry (i+1). -/
theorem c8_whitelists_sorted :
    (∀ i, i + 1 < REST_ENDPOINT_WHITELIST.length →
      strLe (REST_ENDPOINT_WHITELIST.getD i "")
        (REST_ENDPOINT_WHITELIST.getD (i + 1) "") = true) ∧
    (∀ i, i + 1 < GRPC_ENDPOINT_WHITELIST.length →
      strLe (GRPC_ENDPOINT_WHITELIST.getD i "")
        (GRPC_ENDPOINT_WHITELIST.getD (i + 1) "") = true) := by
  constructor
  · intro i h
    have hi : i < REST_ENDPOINT_WHITELIST.length := by omega
    have hp := List.pairwise_iff_get.mp rest_whitelist_sorted ⟨i, hi⟩ ⟨i + 1, h⟩
      (by exact Nat.lt_succ_self i)
    rw [List.getD_eq_get _ "" hi, List.getD_eq_get _ "" h]
    exact hp
  · intro i h
    have hi : i < GRPC_ENDPOINT_WHITELIST.length := by omega
    have hp := List.pairwise_iff_get.mp grpc_whitelist_sorted ⟨i, hi⟩ ⟨i + 1, h⟩
      (by exact Nat.lt_succ_self i)
    rw [List.getD_eq_get _ "" hi, List.getD_eq_get _ "" h]
    exact hp

/-- Witness for C8 at the first adjacent pair of each list. -/
theorem c8_whitelists_sorted_witness :
    strLe (REST_ENDPOINT_WHITELIST.getD 0 "")
      (REST_ENDPOINT_WHITELIST.getD 1 "") = true ∧
    strLe (GRPC_ENDPOINT_WHITELIST.getD 0 "")
      (GRPC_ENDPOINT_WHITELIST.getD 1 "") = true :=
  ⟨c8_whitelists_sorted.1 0 (by decide), c8_whitelists_sorted.2 0 (by decide)⟩

/-- Shard fixture whose local detail reports two excluded vector names, so
the freshly seeded hash map holds two entries and its iteration order is
observable. -/
def shardC9 : ReplicaSetTelemetry :=
  { replicate_states := [(1, ReplicaState.Active)]
    localShard := some { indexed_only_excluded_vectors := some [("v1", 1), ("v2", 2)] } }

/-- Snapshot fixture for C9: one Full collection with two excluded vector
names. -/
def telemetryC9x : TelemetryData :=
  { app := { name := "qdrant", version := "1.7.0", features := none }
    collections :=
      { number_of_collections := 1
        collections := [some (CollectionTelemetryEnum.Full
          { id := "C"
            count_optimizers_running := 0
            count_points := 0
            count_points_per_vector := []
            shards := some [shardC9] })] }
    cluster := none
    requests := none
    hardware := none
    memory := none }

/-- Counterexample to C9: the indexed-only-excluded rollup iterates a
freshly seeded HashMap created inside the invocation, so two invocations on
the same snapshot may realize different iteration orders. Both the
first-insertion order and its reverse are permutations of the accumulated
entries, hence admissible orders, yet they give different ordered outputs:
the two indexed-only-excluded samples swap. -/
theorem c9_projection_deterministic_counterexample :
    MetricsData.new_from_telemetryOrd id telemetryC9x none ≠
      MetricsData.new_from_telemetryOrd List.reverse telemetryC9x none := by
  intro h
  exact absurd
    (congrArg (fun out =>
      (familiesNamed "collection_indexed_only_excluded_points" out).map
        fun s => s.map Metric.label) h)
    (by decide)

/-- C9 (amended): the projection (without the OS process-stats hook) is
deterministic up to the iteration order of the freshly seeded hash map of
the indexed-only-excluded rollup: two invocations realizing the same
iteration order on equal snapshots and equal name parts produce identical
ordered family lists, and two invocations realizing any admissible
(permutation) orders produce the same families in the same order, with the
same name, help and kind, and the same samples up to order within each
family. -/
theorem c9_deterministic_up_to_hash_order (t1 t2 : TelemetryData)
    (p1 p2 : Option String)
    (ord1 ord2 : List (String × Nat) → List (String × Nat))
    (ht : t1 = t2) (hp : p1 = p2)
    (h1 : ∀ l, (ord1 l).Perm l) (h2 : ∀ l, (ord2 l).Perm l) :
    MetricsData.new_from_telemetryOrd ord1 t1 p1 =
      MetricsData.new_from_telemetryOrd ord1 t2 p2 ∧
    List.Forall₂ familyUpToSampleOrder
      (MetricsData.new_from_telemetryOrd ord1 t1 p1)
      (MetricsData.new_from_telemetryOrd ord2 t2 p2) := by
  subst ht hp
  exact ⟨rfl, rootOrd_forall₂ ord1 ord2 h1 h2 t1 p1⟩

/-- Witness for the amended C9 at a concrete snapshot with the
first-insertion order and its reverse as the two realized orders. -/
theorem c9_deterministic_up_to_hash_order_witness :
    MetricsData.new_from_telemetryOrd id telemetryC9x none =
      MetricsData.new_from_telemetryOrd id telemetryC9x none ∧
    List.Forall₂ familyUpToSampleOrder
      (MetricsData.new_from_telemetryOrd id telemetryC9x none)
      (MetricsData.new_from_telemetryOrd List.reverse telemetryC9x none) :=
  c9_deterministic_up_to_hash_order telemetryC9x telemetryC9x none none id
    List.reverse rfl rfl (fun l => List.Perm.refl l) (fun l => l.reverse_perm)

/-- C10: request family base names receive the domain word: with a global
name part P the names are P, then the domain word with an underscore, then
the base name; without one the bare domain word is prepended with no
underscore (restresponses_total, grpcresponses_total). -/
theorem c10_request_family_names (P : String)
    (stat : OperationDurationStatistics) (labels : List (String × String)) :
    (((OperationDurationMetricsBuilder.default.add stat labels true).build
        (some P) "rest" []).map (fun f => f.name) =
      [P ++ "rest_" ++ "responses_total",
       P ++ "rest_" ++ "responses_fail_total",
       P ++ "rest_" ++ "responses_avg_duration_seconds",
       P ++ "rest_" ++ "responses_min_duration_seconds",
       P ++ "rest_" ++ "responses_max_duration_seconds",
       P ++ "rest_" ++ "responses_duration_seconds"]) ∧
    (((OperationDurationMetricsBuilder.default.add stat labels true).build
        none "rest" []).map (fun f => f.name) =
      ["restresponses_total", "restresponses_fail_total",
       "restresponses_avg_duration_seconds", "restresponses_min_duration_seconds",
       "restresponses_max_duration_seconds", "restresponses_duration_seconds"]) ∧
    (((OperationDurationMetricsBuilder.default.add stat labels true).build
        (some P) "grpc" []).map (fun f => f.name) =
      [P ++ "grpc_" ++ "responses_total",
       P ++ "grpc_" ++ "responses_fail_total",
       P ++ "grpc_" ++ "responses_avg_duration_seconds",
       P ++ "grpc_" ++ "responses_min_duration_seconds",
       P ++ "grpc_" ++ "responses_max_duration_seconds",
       P ++ "grpc_" ++ "responses_duration_seconds"]) ∧
    (((OperationDurationMetricsBuilder.default.add stat labels true).build
        none "grpc" []).map (fun f => f.name) =
      ["grpcresponses_total", "grpcresponses_fail_total",
       "grpcresponses_avg_duration_seconds", "grpcresponses_min_duration_seconds",
       "grpcresponses_max_duration_seconds", "grpcresponses_duration_seconds"]) := by
  have hrest : (P ++ "rest") ++ "_" = P ++ "rest_" := by
    rw [String.append_assoc]
    rfl
  have hgrpc : (P ++ "grpc") ++ "_" = P ++ "grpc_" := by
    rw [String.append_assoc]
    rfl
  refine ⟨?_, ?_, ?_, ?_⟩ <;>
    simp [OperationDurationMetricsBuilder.build,
      OperationDurationMetricsBuilder.add, OperationDurationMetricsBuilder.default,
      domainPfx, metric_family, hrest, hgrpc, String.append_assoc]

/-- Statistics fixture for the C6 round-trip conjunct: an average duration
of 2,500,000 microseconds. -/
def statC6 : OperationDurationStatistics :=
  { count := 1
    fail_count := none
    avg_duration_micros := some 2500000
    min_duration_micros := none
    max_duration_micros := none
    total_duration_micros := none
    duration_micros_histogram := [] }

/-- C6: with timings included, the builder divides microseconds by
1,000,000 with absent fields defaulting to 0: the avg/min/max gauges, the
histogram sample count (the statistics count), sample sum (total micros
over 1,000,000) and buckets (bounds divided, cumulative counts unchanged);
an average of 2,500,000 micros yields exactly 2.5 seconds. -/
theorem c6_timing_conversion (b : OperationDurationMetricsBuilder)
    (stat : OperationDurationStatistics) (labels : List (String × String)) :
    ((b.add stat labels true).avg_secs =
      b.avg_secs ++ [gauge (stat.avg_duration_micros.getD 0 / 1000000) labels]) ∧
    ((b.add stat labels true).min_secs =
      b.min_secs ++ [gauge (stat.min_duration_micros.getD 0 / 1000000) labels]) ∧
    ((b.add stat labels true).max_secs =
      b.max_secs ++ [gauge (stat.max_duration_micros.getD 0 / 1000000) labels]) ∧
    ((b.add stat labels true).duration_histogram_secs =
      b.duration_histogram_secs ++
        [histogram stat.count (((stat.total_duration_micros.getD 0 : Nat) : ℚ) / 1000000)
          (stat.duration_micros_histogram.map fun bc => (bc.1 / 1000000, bc.2)) labels]) ∧
    ((OperationDurationMetricsBuilder.default.add statC6 [] true).avg_secs =
      [gauge (2.5 : ℚ) []]) := by
  refine ⟨?_, ?_, ?_, ?_, ?_⟩
  · simp [OperationDurationMetricsBuilder.add]
  · simp [OperationDurationMetricsBuilder.add]
  · simp [OperationDurationMetricsBuilder.add]
  · simp [OperationDurationMetricsBuilder.add]
  · simp only [OperationDurationMetricsBuilder.add,
      OperationDurationMetricsBuilder.default, statC6, gauge, Option.getD,
      Bool.not_true, List.nil_append]
    norm_num

/-- C1: shards with a Resharding replica are excluded from the cluster-wide
min/max active-replica computation (inserting one changes neither value);
every other shard contributes its is_active replica count, folded into a
running min and max across all eligible shards of all Full collections. -/
theorem c1_minmax_resharding_exclusion (t : CollectionsTelemetry)
    (hlt : ∀ n ∈ specEligibleActiveCounts t, n < usizeMAX) :
    totalMinActiveReplicasValue t = specMinActiveReplicas t ∧
    (collectionAggregates t).total_max_active_replicas = specMaxActiveReplicas t ∧
    ∀ i s, shardIsResharding s = true →
      totalMinActiveReplicasValue (insertShardAt t i s) =
        totalMinActiveReplicasValue t ∧
      (collectionAggregates (insertShardAt t i s)).total_max_active_replicas =
        (collectionAggregates t).total_max_active_replicas := by
  refine ⟨totalMin_eq_spec t hlt, totalMax_eq_spec t, ?_⟩
  intro i s hs
  have hc := insert_spec_counts t i s hs
  have hltI : ∀ n ∈ specEligibleActiveCounts (insertShardAt t i s), n < usizeMAX := by
    rw [hc]
    exact hlt
  constructor
  · rw [totalMin_eq_spec (insertShardAt t i s) hltI, totalMin_eq_spec t hlt]
    unfold specMinActiveReplicas
    rw [hc]
  · rw [totalMax_eq_spec (insertShardAt t i s), totalMax_eq_spec t]
    unfold specMaxActiveReplicas
    rw [hc]

/-- Shard fixture with one active and one dead replica. -/
def shardX : ReplicaSetTelemetry :=
  { replicate_states := [(1, ReplicaState.Active), (2, ReplicaState.Dead)]
    localShard := none }

/-- Shard fixture with an active and a scale-down replica (both active). -/
def shardY : ReplicaSetTelemetry :=
  { replicate_states := [(1, ReplicaState.Active), (2, ReplicaState.ReshardingScaleDown)]
    localShard := none }

/-- Shard fixture containing a Resharding replica (mid upscale). -/
def shardR : ReplicaSetTelemetry :=
  { replicate_states := [(3, ReplicaState.Resharding), (4, ReplicaState.Active)]
    localShard := none }

/-- Snapshot fixture for the C1 witness: one Full collection with two
eligible shards of active counts 1 and 2. -/
def telemetryC1 : CollectionsTelemetry :=
  { number_of_collections := 1
    collections := [some (CollectionTelemetryEnum.Full
      { id := "C"
        count_optimizers_running := 0
        count_points := 0
        count_points_per_vector := []
        shards := some [shardX, shardY] })] }

/-- Witness for C1 at a concrete snapshot and a concrete mid-upscale
shard inserted into collection 0. -/
theorem c1_minmax_resharding_exclusion_witness :
    totalMinActiveReplicasValue telemetryC1 = specMinActiveReplicas telemetryC1 ∧
    (collectionAggregates telemetryC1).total_max_active_replicas =
      specMaxActiveReplicas telemetryC1 ∧
    (totalMinActiveReplicasValue (insertShardAt telemetryC1 0 shardR) =
      totalMinActiveReplicasValue telemetryC1 ∧
    (collectionAggregates (insertShardAt telemetryC1 0 shardR)).total_max_active_replicas =
      (collectionAggregates telemetryC1).total_max_active_replicas) := by
  have h : ∀ n ∈ specEligibleActiveCounts telemetryC1, n < usizeMAX := by decide
  exact ⟨(c1_minmax_resharding_exclusion telemetryC1 h).1,
    (c1_minmax_resharding_exclusion telemetryC1 h).2.1,
    (c1_minmax_resharding_exclusion telemetryC1 h).2.2 0 shardR (by decide)⟩

/-- Collection fixture for the C2 scenario: Full, id A, 10 points. -/
def collectionA : CollectionTelemetry :=
  { id := "A"
    count_optimizers_running := 0
    count_points := 10
    count_points_per_vector := []
    shards := none }

/-- Snapshot fixture for the C2 scenario: a Full collection A with 10
points and an Aggregated collection B. -/
def telemetryC2 : CollectionsTelemetry :=
  { number_of_collections := 2
    collections := [some (CollectionTelemetryEnum.Full collectionA),
      some (CollectionTelemetryEnum.Aggregated { id := "B" })] }

/-- C2: only present Full entries are aggregated: removing every None and
Aggregated entry leaves the whole output unchanged; the concrete scenario
with Full A (10 points) and Aggregated B yields exactly one sample, id A
value 10, in the points-per-collection family. -/
theorem c2_only_full_aggregated (t : CollectionsTelemetry)
    (ms : List MetricFamily) (p : Option String) :
    CollectionsTelemetry.add_metrics
        { t with collections := keepFullEntries t.collections } ms p =
      CollectionsTelemetry.add_metrics t ms p ∧
    familiesNamed "collection_points"
        (CollectionsTelemetry.add_metrics telemetryC2 [] none) =
      [[gauge ((10 : Nat) : ℚ) [("id", "A")]]] := by
  constructor
  · have h := aggregates_purge t
    unfold CollectionsTelemetry.add_metrics totalMinActiveReplicasValue
    rw [h]
  · rfl

/-- C3: the dead-shard total counts shards, not replicas: across all Full
collections each shard contributes exactly once when some replica is not
is_active, with no mid-upscale exclusion; the value is emitted in the
dead_shards_total family. -/
theorem c3_dead_shards_count (t : CollectionsTelemetry)
    (ms : List MetricFamily) (p : Option String) :
    (collectionAggregates t).total_dead_shards = specDeadShardCount t ∧
    metric_family "dead_shards_total"
        "total amount of shard replicas in non-active state" MetricType.GAUGE
        [gauge (((collectionAggregates t).total_dead_shards : Nat) : ℚ) []] p ∈
      CollectionsTelemetry.add_metrics t ms p := by
  refine ⟨aggregates_dead t, ?_⟩
  unfold CollectionsTelemetry.add_metrics
  simp

/-- C4: with no eligible shard anywhere, the emitted active-replica minimum
is 0 (not the usize::MAX sentinel) and the maximum is 0. -/
theorem c4_no_eligible_shards (t : CollectionsTelemetry)
    (ms : List MetricFamily) (p : Option String)
    (h : specEligibleActiveCounts t = []) :
    totalMinActiveReplicasValue t = 0 ∧
    (collectionAggregates t).total_max_active_replicas = 0 ∧
    metric_family "active_replicas_min"
        "minimum number of active replicas across all shards" MetricType.GAUGE
        [gauge ((0 : Nat) : ℚ) []] p ∈
      CollectionsTelemetry.add_metrics t ms p ∧
    metric_family "active_replicas_max"
        "maximum number of active replicas across all shards" MetricType.GAUGE
        [gauge ((0 : Nat) : ℚ) []] p ∈
      CollectionsTelemetry.add_metrics t ms p := by
  have hmin : totalMinActiveReplicasValue t = 0 := by
    unfold totalMinActiveReplicasValue
    rw [aggregates_min, h]
    simp
  have hmax : (collectionAggregates t).total_max_active_replicas = 0 := by
    rw [aggregates_max, h]
    rfl
  refine ⟨hmin, hmax, ?_, ?_⟩
  · unfold CollectionsTelemetry.add_metrics
    rw [hmin]
    simp
  · unfold CollectionsTelemetry.add_metrics
    rw [hmax]
    simp

/-- Snapshot fixture for the C4 witness: one failed (None) entry and one
Aggregated entry, so no shard is eligible. -/
def telemetryC4 : CollectionsTelemetry :=
  { number_of_collections := 2
    collections := [none, some (CollectionTelemetryEnum.Aggregated { id := "B" })] }

/-- Witness for C4 at a concrete snapshot with no eligible shard. -/
theorem c4_no_eligible_shards_witness :
    totalMinActiveReplicasValue telemetryC4 = 0 ∧
    (collectionAggregates telemetryC4).total_max_active_replicas = 0 ∧
    metric_family "active_replicas_min"
        "minimum number of active replicas across all shards" MetricType.GAUGE
        [gauge ((0 : Nat) : ℚ) []] none ∈
      CollectionsTelemetry.add_metrics telemetryC4 [] none ∧
    metric_family "active_replicas_max"
        "maximum number of active replicas across all shards" MetricType.GAUGE
        [gauge ((0 : Nat) : ℚ) []] none ∈
      CollectionsTelemetry.add_metrics telemetryC4 [] none :=
  c4_no_eligible_shards telemetryC4 [] none (by decide)

/-- C5: a whitelisted REST entry with status other than 200 yields exactly
one total and one fail-total sample and no timing or histogram family; with
status 200, and for any whitelisted gRPC entry, the four timing families
are emitted as well. -/
theorem c5_rest_timings_only_success (key m pathT : String) (s1 s2 : Nat)
    (st1 st2 gst : OperationDurationStatistics) (ep : String)
    (ms : List MetricFamily) (p : Option String)
    (hsplit : splitOnceChar key ' ' = some (m, pathT))
    (hwl : pathT ∈ REST_ENDPOINT_WHITELIST)
    (h1 : s1 ≠ REST_TIMINGS_FOR_STATUS)
    (h2 : s2 = REST_TIMINGS_FOR_STATUS)
    (hep : ep ∈ GRPC_ENDPOINT_WHITELIST) :
    (WebApiTelemetry.add_metrics ⟨[(key, [(s1, st1)])]⟩ ms p =
      ms ++
        [metric_family "responses_total" "total number of responses"
          MetricType.COUNTER
          [counter (st1.count : ℚ)
            [("method", m), ("endpoint", pathT), ("status", toString s1)]]
          (some (domainPfx p "rest")),
        metric_family "responses_fail_total" "total number of failed responses"
          MetricType.COUNTER
          [counter ((st1.fail_count.getD 0 : Nat) : ℚ)
            [("method", m), ("endpoint", pathT), ("status", toString s1)]]
          (some (domainPfx p "rest"))]) ∧
    (WebApiTelemetry.add_metrics ⟨[(key, [(s2, st2)])]⟩ ms p =
      ms ++
        [metric_family "responses_total" "total number of responses"
          MetricType.COUNTER
          [counter (st2.count : ℚ)
            [("method", m), ("endpoint", pathT), ("status", toString s2)]]
          (some (domainPfx p "rest")),
        metric_family "responses_fail_total" "total number of failed responses"
          MetricType.COUNTER
          [counter ((st2.fail_count.getD 0 : Nat) : ℚ)
            [("method", m), ("endpoint", pathT), ("status", toString s2)]]
          (some (domainPfx p "rest")),
        metric_family "responses_avg_duration_seconds" "average response duration"
          MetricType.GAUGE
          [gauge (st2.avg_duration_micros.getD 0 / 1000000)
            [("method", m), ("endpoint", pathT), ("status", toString s2)]]
          (some (domainPfx p "rest")),
        metric_family "responses_min_duration_seconds" "minimum response duration"
          MetricType.GAUGE
          [gauge (st2.min_duration_micros.getD 0 / 1000000)
            [("method", m), ("endpoint", pathT), ("status", toString s2)]]
          (some (domainPfx p "rest")),
        metric_family "responses_max_duration_seconds" "maximum response duration"
          MetricType.GAUGE
          [gauge (st2.max_duration_micros.getD 0 / 1000000)
            [("method", m), ("endpoint", pathT), ("status", toString s2)]]
          (some (domainPfx p "rest")),
        metric_family "responses_duration_seconds" "response duration histogram"
          MetricType.HISTOGRAM
          [histogram st2.count (((st2.total_duration_micros.getD 0 : Nat) : ℚ) / 1000000)
            (st2.duration_micros_histogram.map fun bc => (bc.1 / 1000000, bc.2))
            [("method", m), ("endpoint", pathT), ("status", toString s2)]]
          (some (domainPfx p "rest"))]) ∧
    (GrpcTelemetry.add_metrics ⟨[(ep, gst)]⟩ ms p =
      ms ++
        [metric_family "responses_total" "total number of responses"
          MetricType.COUNTER
          [counter (gst.count : ℚ) [("endpoint", ep)]]
          (some (domainPfx p "grpc")),
        metric_family "responses_fail_total" "total number of failed responses"
          MetricType.COUNTER
          [counter ((gst.fail_count.getD 0 : Nat) : ℚ) [("endpoint", ep)]]
          (some (domainPfx p "grpc")),
        metric_family "responses_avg_duration_seconds" "average response duration"
          MetricType.GAUGE
          [gauge (gst.avg_duration_micros.getD 0 / 1000000) [("endpoint", ep)]]
          (some (domainPfx p "grpc")),
        metric_family "responses_min_duration_seconds" "minimum response duration"
          MetricType.GAUGE
          [gauge (gst.min_duration_micros.getD 0 / 1000000) [("endpoint", ep)]]
          (some (domainPfx p "grpc")),
        metric_family "responses_max_duration_seconds" "maximum response duration"
          MetricType.GAUGE
          [gauge (gst.max_duration_micros.getD 0 / 1000000) [("endpoint", ep)]]
          (some (domainPfx p "grpc")),
        metric_family "responses_duration_seconds" "response duration histogram"
          MetricType.HISTOGRAM
          [histogram gst.count (((gst.total_duration_micros.getD 0 : Nat) : ℚ) / 1000000)
            (gst.duration_micros_histogram.map fun bc => (bc.1 / 1000000, bc.2))
            [("endpoint", ep)]]
          (some (domainPfx p "grpc"))]) := by
  have hbs : bsContains REST_ENDPOINT_WHITELIST pathT = true :=
    (rest_bsContains_iff pathT).mpr hwl
  have hgbs : bsContains GRPC_ENDPOINT_WHITELIST ep = true :=
    (grpc_bsContains_iff ep).mpr hep
  refine ⟨?_, ?_, ?_⟩
  · simp [WebApiTelemetry.add_metrics, restAddEntry, hsplit, hbs, h1,
      OperationDurationMetricsBuilder.add, OperationDurationMetricsBuilder.build,
      OperationDurationMetricsBuilder.default]
  · simp [WebApiTelemetry.add_metrics, restAddEntry, hsplit, hbs, h2,
      OperationDurationMetricsBuilder.add, OperationDurationMetricsBuilder.build,
      OperationDurationMetricsBuilder.default]
  · simp [GrpcTelemetry.add_metrics, grpcAddEntry, hgbs,
      OperationDurationMetricsBuilder.add, OperationDurationMetricsBuilder.build,
      OperationDurationMetricsBuilder.default]

/-- Statistics fixture for the C5 witness. -/
def statC5 : OperationDurationStatistics :=
  { count := 5
    fail_count := some 1
    avg_duration_micros := some 1000000
    min_duration_micros := some 500000
    max_duration_micros := some 2000000
    total_duration_micros := some 5000000
    duration_micros_histogram := [(1000000, 5)] }

/-- Witness for C5: a whitelisted REST endpoint with status 404 emits only
the total and fail-total families. -/
theorem c5_rest_timings_only_success_witness :
    WebApiTelemetry.add_metrics
        ⟨[("GET /collections/{name}/points/search", [(404, statC5)])]⟩ [] none =
      [] ++
        [metric_family "responses_total" "total number of responses"
          MetricType.COUNTER
          [counter (statC5.count : ℚ)
            [("method", "GET"), ("endpoint", "/collections/{name}/points/search"),
             ("status", toString 404)]]
          (some (domainPfx none "rest")),
        metric_family "responses_fail_total" "total number of failed responses"
          MetricType.COUNTER
          [counter ((statC5.fail_count.getD 0 : Nat) : ℚ)
            [("method", "GET"), ("endpoint", "/collections/{name}/points/search"),
             ("status", toString 404)]]
          (some (domainPfx none "rest"))] :=
  (c5_rest_timings_only_success "GET /collections/{name}/points/search" "GET"
    "/collections/{name}/points/search" 404 200 statC5 statC5 statC5
    "/qdrant.Points/Search" [] none (by decide) (by decide) (by decide) rfl
    (by decide)).1

/-- Statistics fixture for the C7 scenario: count 5, nothing else set. -/
def statC7 : OperationDurationStatistics :=
  { count := 5
    fail_count := none
    avg_duration_micros := none
    min_duration_micros := none
    max_duration_micros := none
    total_duration_micros := none
    duration_micros_histogram := [] }

/-- REST telemetry fixture for the C7 scenario. -/
def telemetryC7 : WebApiTelemetry :=
  ⟨[("GET /collections/{name}/points/search", [(200, statC7)])]⟩

/-- C7: endpoint keys that cannot be split at a space, REST entries with a
non-whitelisted path, and gRPC entries with a non-whitelisted method are
silently dropped, contributing no sample; the whitelisted scenario key with
status 200 and count 5 produces the responses-total sample with labels
method GET, the path template, status 200 and value 5. -/
theorem c7_whitelist_filtering
    (preL postL : List (String × List (Nat × OperationDurationStatistics)))
    (key1 key2 m pathT : String)
    (resp1 resp2 : List (Nat × OperationDurationStatistics))
    (gpre gpost : List (String × OperationDurationStatistics))
    (gkey : String) (gst : OperationDurationStatistics)
    (ms : List MetricFamily) (p : Option String)
    (h1 : splitOnceChar key1 ' ' = none)
    (h2 : splitOnceChar key2 ' ' = some (m, pathT))
    (h3 : pathT ∉ REST_ENDPOINT_WHITELIST)
    (h4 : gkey ∉ GRPC_ENDPOINT_WHITELIST) :
    (WebApiTelemetry.add_metrics ⟨preL ++ (key1, resp1) :: postL⟩ ms p =
      WebApiTelemetry.add_metrics ⟨preL ++ postL⟩ ms p) ∧
    (WebApiTelemetry.add_metrics ⟨preL ++ (key2, resp2) :: postL⟩ ms p =
      WebApiTelemetry.add_metrics ⟨preL ++ postL⟩ ms p) ∧
    (GrpcTelemetry.add_metrics ⟨gpre ++ (gkey, gst) :: gpost⟩ ms p =
      GrpcTelemetry.add_metrics ⟨gpre ++ gpost⟩ ms p) ∧
    (WebApiTelemetry.add_metrics telemetryC7 [] none).head? =
      some (metric_family "responses_total" "total number of responses"
        MetricType.COUNTER
        [counter ((5 : Nat) : ℚ)
          [("method", "GET"), ("endpoint", "/collections/{name}/points/search"),
           ("status", "200")]]
        (some (domainPfx none "rest"))) := by
  have hbs : bsContains REST_ENDPOINT_WHITELIST pathT = false := by
    rw [Bool.eq_false_iff]
    intro hc
    exact h3 ((rest_bsContains_iff pathT).mp hc)
  have hgbs : bsContains GRPC_ENDPOINT_WHITELIST gkey = false := by
    rw [Bool.eq_false_iff]
    intro hc
    exact h4 ((grpc_bsContains_iff gkey).mp hc)
  have hdrop1 : ∀ b, restAddEntry b (key1, resp1) = b := by
    intro b
    simp [restAddEntry, h1]
  have hdrop2 : ∀ b, restAddEntry b (key2, resp2) = b := by
    intro b
    simp [restAddEntry, h2, hbs]
  have hdrop3 : ∀ b, grpcAddEntry b (gkey, gst) = b := by
    intro b
    simp [grpcAddEntry, hgbs]
  refine ⟨?_, ?_, ?_, ?_⟩
  · simp only [WebApiTelemetry.add_metrics, List.foldl_append, List.foldl_cons,
      hdrop1]
  · simp only [WebApiTelemetry.add_metrics, List.foldl_append, List.foldl_cons,
      hdrop2]
  · simp only [GrpcTelemetry.add_metrics, List.foldl_append, List.foldl_cons,
      hdrop3]
  · have hsp : splitOnceChar "GET /collections/{name}/points/search" ' ' =
        some ("GET", "/collections/{name}/points/search") := by decide
    have hbs7 : bsContains REST_ENDPOINT_WHITELIST
        "/collections/{name}/points/search" = true :=
      (rest_bsContains_iff _).mpr (by decide)
    have hts : (toString (200 : Nat)) = "200" := by decide
    simp [telemetryC7, WebApiTelemetry.add_metrics, restAddEntry, hsp, hbs7,
      OperationDurationMetricsBuilder.add, OperationDurationMetricsBuilder.build,
      OperationDurationMetricsBuilder.default, statC7, REST_TIMINGS_FOR_STATUS,
      metric_family, domainPfx, hts]

/-- Witness for C7 at concrete dropped entries (a key with no space, a
non-whitelisted REST path, a non-whitelisted gRPC method). -/
theorem c7_whitelist_filtering_witness :
    (WebApiTelemetry.add_metrics ⟨[("metricsx", [])]⟩ [] none =
      WebApiTelemetry.add_metrics ⟨[]⟩ [] none) ∧
    (WebApiTelemetry.add_metrics ⟨[("GET /internal/debug", [(200, statC7)])]⟩ [] none =
      WebApiTelemetry.add_metrics ⟨[]⟩ [] none) ∧
    (GrpcTelemetry.add_metrics ⟨[("/qdrant.Points/Internal", statC7)]⟩ [] none =
      GrpcTelemetry.add_metrics ⟨[]⟩ [] none) ∧
    (WebApiTelemetry.add_metrics telemetryC7 [] none).head? =
      some (metric_family "responses_total" "total number of responses"
        MetricType.COUNTER
        [counter ((5 : Nat) : ℚ)
          [("method", "GET"), ("endpoint", "/collections/{name}/points/search"),
           ("status", "200")]]
        (some (domainPfx none "rest"))) :=
  c7_whitelist_filtering [] [] "metricsx" "GET /internal/debug" "GET"
    "/internal/debug" [] [(200, statC7)] [] [] "/qdrant.Points/Internal" statC7
    [] none (by decide) (by decide) (by decide) (by decide)

end QdrantMetrics
